import Mathlib

/-!
Verification of the Caprichos restaurant backend's order/inventory/invoice
core against its natural-language specification.

The model is a shallow embedding of the Django application: the database is
an explicit record of rows, each Django model instance is a structure, and
each service / API-view function is a pure Lean function from the database
(plus request parameters) to a result and an updated database.  Django's
instance semantics are modelled faithfully: `Model.objects.get(...)` is a
lookup in the current database state, a held instance is a snapshot whose
`save()` writes the snapshot's fields back, and `@transaction.atomic` only
rolls back on an exception that escapes the function (the sources catch
exceptions inside the functions, so partial writes made before a caught
exception persist, exactly as in Django).

Monetary values (DecimalField) are modelled as `Rat` (decimal arithmetic on
the operations used here -- addition, subtraction, multiplication,
comparison -- is exact, so `Rat` is a faithful carrier).  `IntegerField`
quantities are `Int` (Django integer fields accept negative values).
Timestamps are an abstract logical clock `now : Nat`; `timezone.now()`
returns the current clock value.
-/

namespace Caprichos

/-- Row of `core.models.Producto`: product with stock (`cantidad`,
an IntegerField, hence `Int`), price and availability flags. -/
structure Producto where
  id : Nat
  nombre : String
  cantidad : Int
  precio : Rat
  is_available : Bool
  is_active : Bool
  deriving Repr, DecidableEq

/-- Row of `core.models.Mesa`: table with number (0 and 50 are the virtual
delivery / reservation tables) and occupancy state (`"LIBRE"`/`"OCUPADA"`). -/
structure Mesa where
  id : Nat
  numero : Int
  estado : String
  is_active : Bool
  deriving Repr, DecidableEq

/-- Row of `core.models.Orden`: order with waiter, table, state
(`"NUEVA"`/`"EN_PROCESO"`/`"LISTA"`/`"SERVIDA"`) and ready timestamp. -/
structure Orden where
  id : Nat
  meseroId : Nat
  mesaId : Nat
  estado : String
  observaciones : String
  listo_en : Option Nat
  deriving Repr, DecidableEq

/-- Row of `core.models.OrdenProducto`: line item with captured unit price
and state (`"PENDIENTE"`/`"LISTO"`). -/
structure OrdenProducto where
  id : Nat
  ordenId : Nat
  productoId : Nat
  cantidad : Int
  precio_unitario : Rat
  estado : String
  observaciones : String
  listo_en : Option Nat
  deriving Repr, DecidableEq

/-- Row of `core.models.Factura`: invoice with totals, payment state
(`"NO_PAGADA"`/`"PARCIAL"`/`"PAGADA"`/`"REEMBOLSADA"`) and paid timestamp. -/
structure Factura where
  id : Nat
  ordenId : Nat
  subtotal : Rat
  total : Rat
  metodo_pago : String
  estado_pago : String
  cliente_nombre : String
  observaciones : String
  pagado_en : Option Nat
  deriving Repr, DecidableEq

/-- The whole mutable state: the relational tables plus the two cache-backed
notification counters of `core/utils.py` and the logical clock. -/
structure DB where
  productos : List Producto
  mesas : List Mesa
  ordenes : List Orden
  ordenProductos : List OrdenProducto
  facturas : List Factura
  notifCocina : Nat
  notifStock : Nat
  now : Nat
  deriving Repr, DecidableEq

/-- `Producto.objects.get(id=i)` (ignoring flags). -/
def DB.getProducto (db : DB) (i : Nat) : Option Producto :=
  db.productos.find? (fun p => p.id == i)

/-- `producto.save()`: write the instance's fields back to its row. -/
def DB.saveProducto (db : DB) (p : Producto) : DB :=
  { db with productos := db.productos.map (fun q => if q.id == p.id then p else q) }

/-- `Mesa.objects.get(id=i)`. -/
def DB.getMesa (db : DB) (i : Nat) : Option Mesa :=
  db.mesas.find? (fun m => m.id == i)

/-- `mesa.save()`. -/
def DB.saveMesa (db : DB) (m : Mesa) : DB :=
  { db with mesas := db.mesas.map (fun q => if q.id == m.id then m else q) }

/-- `Orden.objects.get(id=i)`. -/
def DB.getOrden (db : DB) (i : Nat) : Option Orden :=
  db.ordenes.find? (fun o => o.id == i)

/-- `orden.save()`. -/
def DB.saveOrden (db : DB) (o : Orden) : DB :=
  { db with ordenes := db.ordenes.map (fun q => if q.id == o.id then o else q) }

/-- `OrdenProducto.objects.get(id=i)`. -/
def DB.getOrdenProducto (db : DB) (i : Nat) : Option OrdenProducto :=
  db.ordenProductos.find? (fun po => po.id == i)

/-- `producto_orden.save()`. -/
def DB.saveOrdenProducto (db : DB) (po : OrdenProducto) : DB :=
  { db with ordenProductos :=
      db.ordenProductos.map (fun q => if q.id == po.id then po else q) }

/-- `factura.save()`. -/
def DB.saveFactura (db : DB) (f : Factura) : DB :=
  { db with facturas := db.facturas.map (fun q => if q.id == f.id then f else q) }

/-- `Factura.objects.get(id=i)`. -/
def DB.getFactura (db : DB) (i : Nat) : Option Factura :=
  db.facturas.find? (fun f => f.id == i)

/-- `Orden.objects.create(...)`: insert a fresh order row. -/
def DB.insertOrden (db : DB) (o : Orden) : DB :=
  { db with ordenes := db.ordenes ++ [o] }

/-- `OrdenProducto.objects.create(...)`: insert a fresh line-item row. -/
def DB.insertOrdenProducto (db : DB) (po : OrdenProducto) : DB :=
  { db with ordenProductos := db.ordenProductos ++ [po] }

/-- `Factura.objects.create(...)`: insert a fresh invoice row. -/
def DB.insertFactura (db : DB) (f : Factura) : DB :=
  { db with facturas := db.facturas ++ [f] }

/-- `orden.productos_ordenados.all()`: the order's line items, in row order. -/
def DB.productosOrdenados (db : DB) (ordenId : Nat) : List OrdenProducto :=
  db.ordenProductos.filter (fun po => po.ordenId == ordenId)

/-- `orden.productos_ordenados.filter(estado='PENDIENTE').count()`. -/
def pendientesCount (db : DB) (ordenId : Nat) : Nat :=
  ((db.productosOrdenados ordenId).filter (fun po => po.estado == "PENDIENTE")).length

/-- `core.utils.calcular_total_orden`: sum of quantity times captured unit
price over the order's line items. -/
def calcular_total_orden (db : DB) (ordenId : Nat) : Rat :=
  ((db.productosOrdenados ordenId).map
    (fun po => (po.cantidad : Rat) * po.precio_unitario)).sum

/-- `core.utils.notificar_cambio_cocina`: increment the kitchen notification
counter kept in the cache (`cache.get` defaults to 0, then `cache.set`). -/
def notificar_cambio_cocina (db : DB) : DB :=
  { db with notifCocina := db.notifCocina + 1 }

/-- `core.utils.notificar_cambio_stock`: increment the stock notification
counter kept in the cache. -/
def notificar_cambio_stock (db : DB) : DB :=
  { db with notifStock := db.notifStock + 1 }

/-- Fresh primary key for a new `Orden` row. -/
def freshOrdenId (db : DB) : Nat :=
  db.ordenes.foldl (fun m o => max m o.id) 0 + 1

/-- Fresh primary key for a new `OrdenProducto` row. -/
def freshOrdenProductoId (db : DB) : Nat :=
  db.ordenProductos.foldl (fun m po => max m po.id) 0 + 1

/-- Fresh primary key for a new `Factura` row. -/
def freshFacturaId (db : DB) : Nat :=
  db.facturas.foldl (fun m f => max m f.id) 0 + 1

/-- One entry of the `productos_pedido` request payload:
`{'id': int, 'cantidad': int, 'observaciones': str}`. -/
structure ItemPedido where
  id : Nat
  cantidad : Int
  observaciones : String
  deriving Repr, DecidableEq

/-- Result of `MeseroService.crear_orden_completa`. -/
structure CrearOrdenResult where
  success : Bool
  errores : List String
  ordenId : Option Nat
  deriving Repr, DecidableEq

/-- Validation loop of `MeseroService.crear_orden_completa` (lines 62-101):
each item is checked against the product row fetched NOW (the database is
not mutated during validation), and the fetched instance is kept as a
snapshot for the later mutation loop. -/
def validarPedido (db : DB) (productos_pedido : List ItemPedido) :
    List (Producto × Int × String) × List String :=
  productos_pedido.foldl
    (fun (acc : List (Producto × Int × String) × List String) (item : ItemPedido) =>
      let (vals, errs) := acc
      match db.productos.find?
          (fun p => p.id == item.id && p.is_active && p.is_available) with
      | none => (vals, errs ++ ["Producto no encontrado"])
      | some producto =>
        if item.cantidad ≤ 0 then
          (vals, errs ++ [producto.nombre ++ ": Cantidad debe ser mayor a 0"])
        else if producto.cantidad < item.cantidad then
          (vals, errs ++ [producto.nombre ++ ": Stock insuficiente"])
        else
          (vals ++ [(producto, item.cantidad, item.observaciones)], errs))
    ([], [])

/-- Mutation loop of `MeseroService.crear_orden_completa` (lines 120-139):
create each line item from the VALIDATION-TIME snapshot and write
`snapshot.cantidad - cantidad` back to the product row (the instance held
since validation is saved, Django does not re-read the row). -/
def crearProductosOrden (ordenId : Nat) :
    List (Producto × Int × String) → DB → DB
  | [], db => db
  | (producto, cantidad, obs) :: rest, db =>
    let po : OrdenProducto :=
      { id := freshOrdenProductoId db, ordenId := ordenId,
        productoId := producto.id, cantidad := cantidad,
        precio_unitario := producto.precio, estado := "PENDIENTE",
        observaciones := obs, listo_en := none }
    let db1 := db.insertOrdenProducto po
    crearProductosOrden ordenId rest
      (db1.saveProducto { producto with cantidad := producto.cantidad - cantidad })

/-- `MeseroService.crear_orden_completa`: validate table and products,
create the order and its line items, decrement stock, occupy a physical
table, signal the notifiers. -/
def crear_orden_completa (db : DB) (meseroId : Nat) (mesaId : Nat)
    (productos_pedido : List ItemPedido) (observaciones_orden : String) :
    CrearOrdenResult × DB :=
  match db.mesas.find? (fun m => m.id == mesaId && m.is_active) with
  | none =>
    ({ success := false, errores := ["Mesa no encontrada o inactiva"],
       ordenId := none }, db)
  | some mesa =>
    if productos_pedido.isEmpty then
      ({ success := false, errores := ["El pedido debe tener al menos un producto"],
         ordenId := none }, db)
    else
      let (validados, errores) := validarPedido db productos_pedido
      if !errores.isEmpty then
        ({ success := false, errores := errores, ordenId := none }, db)
      else if mesa.numero != 0 && mesa.numero != 50 && mesa.estado != "LIBRE" then
        ({ success := false, errores := ["La mesa no está disponible"],
           ordenId := none }, db)
      else
        let ordenId := freshOrdenId db
        let nuevaOrden : Orden :=
          { id := ordenId, meseroId := meseroId, mesaId := mesa.id,
            estado := "EN_PROCESO", observaciones := observaciones_orden,
            listo_en := none }
        let db1 := db.insertOrden nuevaOrden
        let db2 := crearProductosOrden ordenId validados db1
        let db3 :=
          if mesa.numero != 0 && mesa.numero != 50 then
            db2.saveMesa { mesa with estado := "OCUPADA" }
          else db2
        let db4 := notificar_cambio_stock (notificar_cambio_cocina db3)
        ({ success := true, errores := [], ordenId := some ordenId }, db4)

/-- Result of the JSON API views (success flag plus HTTP status). -/
structure ApiResult where
  success : Bool
  status : Nat
  error : Option String
  deriving Repr, DecidableEq

/-- Stock validation loop of `api_crear_orden_tiempo_real` (lines 181-185):
returns the first error.  Each line is checked against the CURRENT stock;
nothing is decremented during validation, so two lines naming the same
product are each checked against the same undiminished stock. -/
def apiValidarStock (db : DB) : List ItemPedido → Option String
  | [] => none
  | item :: rest =>
    match db.getProducto item.id with
    | none => some "Datos inválidos"
    | some producto =>
      if producto.cantidad < item.cantidad then
        some ("Stock insuficiente para " ++ producto.nombre ++ ".")
      else apiValidarStock db rest

/-- Creation loop of `api_crear_orden_tiempo_real` (lines 195-206): for each
line the product row is re-fetched FRESH from the database
(`Producto.objects.get` inside the loop), so a second line for the same
product sees the stock already decremented by the first and decrements it
further -- possibly below zero. -/
def apiCrearProductos (ordenId : Nat) : List ItemPedido → DB → DB
  | [], db => db
  | item :: rest, db =>
    match db.getProducto item.id with
    | none => apiCrearProductos ordenId rest db
    | some producto =>
      let po : OrdenProducto :=
        { id := freshOrdenProductoId db, ordenId := ordenId,
          productoId := producto.id, cantidad := item.cantidad,
          precio_unitario := producto.precio, estado := "PENDIENTE",
          observaciones := item.observaciones, listo_en := none }
      let db1 := db.insertOrdenProducto po
      apiCrearProductos ordenId rest
        (db1.saveProducto { producto with cantidad := producto.cantidad - item.cantidad })

/-- `api_crear_orden_tiempo_real` (core/views/api_views.py lines 166-226):
validate stock line by line against current stock, then create the order,
create the line items re-fetching each product, decrement stock, occupy the
table (unconditionally, even a virtual one), signal the notifiers. -/
def api_crear_orden_tiempo_real (db : DB) (meseroId : Nat) (mesaId : Nat)
    (productos_pedido : List ItemPedido) (observaciones_orden : String) :
    ApiResult × DB :=
  match db.getMesa mesaId with
  | none => ({ success := false, status := 404, error := some "Mesa" }, db)
  | some mesa =>
    if productos_pedido.isEmpty then
      ({ success := false, status := 400,
         error := some "El pedido no tiene productos." }, db)
    else
      match apiValidarStock db productos_pedido with
      | some e => ({ success := false, status := 400, error := some e }, db)
      | none =>
        let ordenId := freshOrdenId db
        let nuevaOrden : Orden :=
          { id := ordenId, meseroId := meseroId, mesaId := mesa.id,
            estado := "EN_PROCESO", observaciones := observaciones_orden,
            listo_en := none }
        let db1 := db.insertOrden nuevaOrden
        let db2 := apiCrearProductos ordenId productos_pedido db1
        let db3 := db2.saveMesa { mesa with estado := "OCUPADA" }
        let db4 := notificar_cambio_stock (notificar_cambio_cocina db3)
        ({ success := true, status := 201, error := none }, db4)

/-- Result of `MeseroService.entregar_orden`. -/
structure EntregarResult where
  success : Bool
  errores : List String
  facturaId : Option Nat
  factura_creada : Bool
  mesa_liberada : Bool
  total : Rat
  deriving Repr, DecidableEq

/-- `MeseroService.entregar_orden` (core/services/mesero_service.py lines
374-454): serve a READY (`LISTA`) order -- guard permissions, state and
pending line items, mark it `SERVIDA`, free a physical table, then
get-or-create its invoice with subtotal = total = the order's total.  With
two or more invoices already present `Factura.objects.get` raises
`MultipleObjectsReturned`, caught only by the function's outer
`except Exception`; the writes already made are kept (the exception never
escapes the atomic block) and no invoice is touched. -/
def entregar_orden (db : DB) (ordenId : Nat) (meseroId : Nat)
    (is_superuser : Bool) : EntregarResult × DB :=
  match db.getOrden ordenId with
  | none =>
    ({ success := false, errores := ["Orden no encontrada"], facturaId := none,
       factura_creada := false, mesa_liberada := false, total := 0 }, db)
  | some orden =>
    if orden.meseroId != meseroId && !is_superuser then
      ({ success := false, errores := ["Solo puedes entregar tus propias órdenes"],
         facturaId := none, factura_creada := false, mesa_liberada := false,
         total := 0 }, db)
    else if orden.estado != "LISTA" then
      ({ success := false, errores := ["La orden debe estar LISTA para entregarla"],
         facturaId := none, factura_creada := false, mesa_liberada := false,
         total := 0 }, db)
    else if pendientesCount db ordenId > 0 then
      ({ success := false, errores := ["Aún hay productos pendientes"],
         facturaId := none, factura_creada := false, mesa_liberada := false,
         total := 0 }, db)
    else
      let total_orden := calcular_total_orden db ordenId
      let db1 := db.saveOrden { orden with estado := "SERVIDA" }
      match db1.getMesa orden.mesaId with
      | none =>
        ({ success := false, errores := ["Error interno"], facturaId := none,
           factura_creada := false, mesa_liberada := false, total := 0 }, db1)
      | some mesa =>
        let db2 :=
          if mesa.numero != 0 && mesa.numero != 50 then
            db1.saveMesa { mesa with estado := "LIBRE" }
          else db1
        match db2.facturas.filter (fun f => f.ordenId == ordenId) with
        | [factura] =>
          let db3 := db2.saveFactura
            { factura with
                estado_pago := "NO_PAGADA",
                subtotal := total_orden,
                total := total_orden }
          ({ success := true, errores := [], facturaId := some factura.id,
             factura_creada := false,
             mesa_liberada := mesa.numero != 0 && mesa.numero != 50,
             total := total_orden }, notificar_cambio_cocina db3)
        | [] =>
          let fid := freshFacturaId db2
          let db3 := db2.insertFactura
            { id := fid, ordenId := ordenId, subtotal := total_orden,
              total := total_orden, metodo_pago := "PENDIENTE",
              estado_pago := "NO_PAGADA", cliente_nombre := "",
              observaciones := "", pagado_en := none }
          ({ success := true, errores := [], facturaId := some fid,
             factura_creada := true,
             mesa_liberada := mesa.numero != 0 && mesa.numero != 50,
             total := total_orden }, notificar_cambio_cocina db3)
        | _ =>
          ({ success := false, errores := ["Error interno"], facturaId := none,
             factura_creada := false, mesa_liberada := false, total := 0 }, db2)

/-- `api_marcar_orden_servida` (core/views/api_views.py lines 626-666): same
state guards as `entregar_orden`, but the table is set `LIBRE`
UNCONDITIONALLY (no virtual-table check), no permission check is made and no
invoice is created or updated. -/
def api_marcar_orden_servida (db : DB) (ordenId : Nat) : ApiResult × DB :=
  match db.getOrden ordenId with
  | none => ({ success := false, status := 404, error := some "Orden" }, db)
  | some orden =>
    if orden.estado != "LISTA" then
      ({ success := false, status := 400,
         error := some "La orden debe estar en estado LISTA" }, db)
    else if pendientesCount db ordenId > 0 then
      ({ success := false, status := 400,
         error := some "Aún hay productos pendientes en esta orden" }, db)
    else
      let db1 := db.saveOrden { orden with estado := "SERVIDA" }
      match db1.getMesa orden.mesaId with
      | none => ({ success := false, status := 500, error := some "Error" }, db1)
      | some mesa =>
        let db2 := db1.saveMesa { mesa with estado := "LIBRE" }
        ({ success := true, status := 200, error := none },
         notificar_cambio_cocina db2)

/-- Result of `CocinaService.marcar_producto_listo`. -/
structure MarcarListoResult where
  success : Bool
  errores : List String
  orden_completa : Bool
  productos_restantes : Nat
  deriving Repr, DecidableEq

/-- `CocinaService.marcar_producto_listo` (core/services/cocina_service.py
lines 27-102): reject an already-`LISTO` item (first check, before anything
else) and an order outside the active states; otherwise mark the item
`LISTO` with its ready timestamp, and if no `PENDIENTE` items remain mark
the order `LISTA` with its ready timestamp. -/
def marcar_producto_listo (db : DB) (producto_orden_id : Nat) :
    MarcarListoResult × DB :=
  match db.getOrdenProducto producto_orden_id with
  | none =>
    ({ success := false, errores := ["Producto de orden no encontrado"],
       orden_completa := false, productos_restantes := 0 }, db)
  | some po =>
    if po.estado == "LISTO" then
      ({ success := false, errores := ["El producto ya está marcado como listo"],
         orden_completa := false, productos_restantes := 0 }, db)
    else
      match db.getOrden po.ordenId with
      | none =>
        ({ success := false, errores := ["Error interno"],
           orden_completa := false, productos_restantes := 0 }, db)
      | some orden =>
        if !(orden.estado == "EN_PROCESO" || orden.estado == "NUEVA" ||
             orden.estado == "LISTA") then
          ({ success := false,
             errores := ["No se puede modificar orden con estado: " ++ orden.estado],
             orden_completa := false, productos_restantes := 0 }, db)
        else
          let db1 := db.saveOrdenProducto
            { po with estado := "LISTO", listo_en := some db.now }
          let productos_pendientes := pendientesCount db1 po.ordenId
          let db2 :=
            if productos_pendientes == 0 then
              db1.saveOrden { orden with estado := "LISTA", listo_en := some db.now }
            else db1
          ({ success := true, errores := [],
             orden_completa := productos_pendientes == 0,
             productos_restantes := productos_pendientes },
           notificar_cambio_cocina db2)

/-- `api_marcar_producto_listo_tiempo_real` (the file to append to
core/views/api_views.py, lines 67-123): same as the kitchen service's
`marcar_producto_listo` except that the ORDER STATE IS NOT CHECKED -- only
an already-`LISTO` item is rejected. -/
def api_marcar_producto_listo_tiempo_real (db : DB) (producto_orden_id : Nat) :
    MarcarListoResult × DB :=
  match db.getOrdenProducto producto_orden_id with
  | none =>
    ({ success := false, errores := ["Producto de orden no encontrado"],
       orden_completa := false, productos_restantes := 0 }, db)
  | some po =>
    if po.estado == "LISTO" then
      ({ success := false, errores := ["El producto ya está marcado como listo"],
         orden_completa := false, productos_restantes := 0 }, db)
    else
      match db.getOrden po.ordenId with
      | none =>
        ({ success := false, errores := ["Error interno"],
           orden_completa := false, productos_restantes := 0 }, db)
      | some orden =>
        let db1 := db.saveOrdenProducto
          { po with estado := "LISTO", listo_en := some db.now }
        let productos_pendientes := pendientesCount db1 po.ordenId
        let db2 :=
          if productos_pendientes == 0 then
            db1.saveOrden { orden with estado := "LISTA", listo_en := some db.now }
          else db1
        ({ success := true, errores := [],
           orden_completa := productos_pendientes == 0,
           productos_restantes := productos_pendientes },
         notificar_cambio_cocina db2)

/-- Result of `CocinaService.decrementar_producto`. -/
structure DecrementarResult where
  success : Bool
  errores : List String
  nueva_cantidad : Int
  deriving Repr, DecidableEq

/-- `CocinaService.decrementar_producto` (core/services/cocina_service.py
lines 104-187): guard order state (`EN_PROCESO`/`NUEVA`), reject a `LISTO`
item and a quantity at 1; otherwise decrement the line item's quantity by
one and return one unit to the product's stock. -/
def decrementar_producto (db : DB) (producto_orden_id : Nat) :
    DecrementarResult × DB :=
  match db.getOrdenProducto producto_orden_id with
  | none =>
    ({ success := false, errores := ["Producto de orden no encontrado"],
       nueva_cantidad := 0 }, db)
  | some po =>
    match db.getOrden po.ordenId with
    | none =>
      ({ success := false, errores := ["Error interno"], nueva_cantidad := 0 }, db)
    | some orden =>
      if !(orden.estado == "EN_PROCESO" || orden.estado == "NUEVA") then
        ({ success := false,
           errores := ["No se puede modificar orden con estado: " ++ orden.estado],
           nueva_cantidad := 0 }, db)
      else if po.estado == "LISTO" then
        ({ success := false,
           errores := ["No se puede decrementar un producto ya completado"],
           nueva_cantidad := 0 }, db)
      else if po.cantidad ≤ 1 then
        ({ success := false,
           errores := ["No se puede decrementar: solo queda 1 unidad. Usa \"Marcar Listo\" para completar."],
           nueva_cantidad := 0 }, db)
      else
        let db1 := db.saveOrdenProducto { po with cantidad := po.cantidad - 1 }
        match db1.getProducto po.productoId with
        | none =>
          ({ success := false, errores := ["Error interno"],
             nueva_cantidad := 0 }, db1)
        | some producto =>
          let db2 := db1.saveProducto
            { producto with cantidad := producto.cantidad + 1 }
          ({ success := true, errores := [], nueva_cantidad := po.cantidad - 1 },
           notificar_cambio_stock (notificar_cambio_cocina db2))

/-- `api_decrementar_producto_tiempo_real` (the file to append to
core/views/api_views.py, lines 126-187): the same guards (in the same
order) and the same effects as the kitchen service's
`decrementar_producto`. -/
def api_decrementar_producto_tiempo_real (db : DB) (producto_orden_id : Nat) :
    DecrementarResult × DB :=
  match db.getOrdenProducto producto_orden_id with
  | none =>
    ({ success := false, errores := ["Producto de orden no encontrado"],
       nueva_cantidad := 0 }, db)
  | some po =>
    match db.getOrden po.ordenId with
    | none =>
      ({ success := false, errores := ["Error interno"], nueva_cantidad := 0 }, db)
    | some orden =>
      if !(orden.estado == "EN_PROCESO" || orden.estado == "NUEVA") then
        ({ success := false,
           errores := ["No se puede modificar orden con estado: " ++ orden.estado],
           nueva_cantidad := 0 }, db)
      else if po.estado == "LISTO" then
        ({ success := false,
           errores := ["No se puede decrementar un producto ya completado"],
           nueva_cantidad := 0 }, db)
      else if po.cantidad ≤ 1 then
        ({ success := false,
           errores := ["No se puede decrementar: solo queda 1 unidad. Usa \"Marcar Listo\" para completar."],
           nueva_cantidad := 0 }, db)
      else
        let db1 := db.saveOrdenProducto { po with cantidad := po.cantidad - 1 }
        match db1.getProducto po.productoId with
        | none =>
          ({ success := false, errores := ["Error interno"],
             nueva_cantidad := 0 }, db1)
        | some producto =>
          let db2 := db1.saveProducto
            { producto with cantidad := producto.cantidad + 1 }
          ({ success := true, errores := [], nueva_cantidad := po.cantidad - 1 },
           notificar_cambio_stock (notificar_cambio_cocina db2))

/-- `CajeroService.METODOS_PAGO`. -/
def METODOS_PAGO : List String :=
  ["EFECTIVO", "TARJETA_CREDITO", "TARJETA_DEBITO", "TRANSFERENCIA", "DIGITAL", "MIXTO"]

/-- Result of `CajeroService.procesar_pago_factura`.  `cambio` is the value
the response reports: `float(cambio) if cambio > 0 else 0`. -/
structure PagoResult where
  success : Bool
  errores : List String
  cambio : Rat
  estado_pago : String
  pago_completo : Bool
  deriving Repr, DecidableEq

/-- `CajeroService.procesar_pago_factura` (core/services/cajero_service.py
lines 120-228): reject a `PAGADA` or `REEMBOLSADA` invoice, an unknown
payment method and a non-positive amount; otherwise set the invoice to
`PAGADA` (recording the paid timestamp and freeing a physical table) when
the amount covers the total, to `PARCIAL` otherwise. -/
def procesar_pago_factura (db : DB) (factura_id : Nat) (metodo_pago : String)
    (monto_pagado : Rat) (observaciones_pago : String) : PagoResult × DB :=
  match db.getFactura factura_id with
  | none =>
    ({ success := false, errores := ["Factura no encontrada"], cambio := 0,
       estado_pago := "", pago_completo := false }, db)
  | some factura =>
    if factura.estado_pago == "PAGADA" then
      ({ success := false, errores := ["La factura ya está pagada"], cambio := 0,
         estado_pago := "", pago_completo := false }, db)
    else if factura.estado_pago == "REEMBOLSADA" then
      ({ success := false, errores := ["No se puede pagar una factura reembolsada"],
         cambio := 0, estado_pago := "", pago_completo := false }, db)
    else if !(METODOS_PAGO.contains metodo_pago) then
      ({ success := false, errores := ["Método de pago inválido"], cambio := 0,
         estado_pago := "", pago_completo := false }, db)
    else if monto_pagado ≤ 0 then
      ({ success := false, errores := ["El monto pagado debe ser mayor a 0"],
         cambio := 0, estado_pago := "", pago_completo := false }, db)
    else
      let total_factura := factura.total
      let cambio := monto_pagado - total_factura
      let nuevo_estado :=
        if monto_pagado ≥ total_factura then "PAGADA" else "PARCIAL"
      let nuevo_pagado_en :=
        if monto_pagado ≥ total_factura then some db.now else factura.pagado_en
      let nuevas_obs :=
        if observaciones_pago != "" then
          factura.observaciones ++ "\nPago: " ++ observaciones_pago
        else factura.observaciones
      let db1 := db.saveFactura
        { factura with
            metodo_pago := metodo_pago,
            estado_pago := nuevo_estado,
            pagado_en := nuevo_pagado_en,
            observaciones := nuevas_obs }
      let db2 :=
        if nuevo_estado == "PAGADA" then
          match db1.getOrden factura.ordenId with
          | none => db1
          | some orden =>
            match db1.getMesa orden.mesaId with
            | none => db1
            | some mesa =>
              if mesa.numero != 0 && mesa.numero != 50 then
                db1.saveMesa { mesa with estado := "LIBRE" }
              else db1
        else db1
      ({ success := true, errores := [],
         cambio := if cambio > 0 then cambio else 0,
         estado_pago := nuevo_estado,
         pago_completo := nuevo_estado == "PAGADA" }, db2)

/-- Result of `CajeroService.procesar_reembolso`. -/
structure ReembolsoResult where
  success : Bool
  errores : List String
  monto_reembolsado : Rat
  deriving Repr, DecidableEq

/-- Restock loop of `CajeroService.procesar_reembolso` (lines 266-271):
for every line item of the order, fetch its product (fresh, at loop time)
and add the line's FULL quantity back to the stock. -/
def reponerStock : List OrdenProducto → DB → DB
  | [], db => db
  | po :: rest, db =>
    match db.getProducto po.productoId with
    | none => reponerStock rest db
    | some producto =>
      reponerStock rest
        (db.saveProducto { producto with cantidad := producto.cantidad + po.cantidad })

/-- `CajeroService.procesar_reembolso` (core/services/cajero_service.py
lines 230-293): only a `PAGADA` invoice may be refunded; the amount defaults
to the full total and may not exceed it; the invoice becomes `REEMBOLSADA`
and every line item's full quantity is returned to the product stock. -/
def procesar_reembolso (db : DB) (factura_id : Nat) (motivo_reembolso : String)
    (monto_reembolso : Option Rat) : ReembolsoResult × DB :=
  match db.getFactura factura_id with
  | none =>
    ({ success := false, errores := ["Factura no encontrada"],
       monto_reembolsado := 0 }, db)
  | some factura =>
    if factura.estado_pago != "PAGADA" then
      ({ success := false, errores := ["Solo se pueden reembolsar facturas pagadas"],
         monto_reembolsado := 0 }, db)
    else
      let monto := monto_reembolso.getD factura.total
      if monto_reembolso.isSome && monto > factura.total then
        ({ success := false,
           errores := ["El monto del reembolso no puede ser mayor al total de la factura"],
           monto_reembolsado := 0 }, db)
      else
        let db1 := db.saveFactura
          { factura with
              estado_pago := "REEMBOLSADA",
              observaciones := factura.observaciones ++ "\nReembolso: " ++
                motivo_reembolso }
        let db2 := reponerStock (db1.productosOrdenados factura.ordenId) db1
        ({ success := true, errores := [], monto_reembolsado := monto }, db2)

/-- Result of `api_marcar_factura_pagada`. -/
structure MarcarPagadaResult where
  success : Bool
  status : Nat
  monto_pagado : Rat
  cambio : Rat
  faltante : Rat
  mesa_liberada : Bool
  deriving Repr, DecidableEq

/-- The payment note `api_marcar_factura_pagada` appends to the invoice's
observations (lines 433-442); numeric rendering is `toString` in place of
Python's `{:,.2f}` formatting. -/
def notaPago (metodo_pago : String) (monto_pagado total : Rat)
    (observaciones_param : String) : String :=
  "Pago: " ++ metodo_pago ++
  (if monto_pagado != total then
    " - Monto: $" ++ toString monto_pagado ++
    (if monto_pagado - total > 0 then
      " - Cambio: $" ++ toString (monto_pagado - total)
     else if monto_pagado - total < 0 then
      " - Faltante: $" ++ toString (total - monto_pagado)
     else "")
   else "") ++
  (if observaciones_param != "" then " - " ++ observaciones_param else "")

/-- `api_marcar_factura_pagada` (the file to append to
core/views/api_views.py, lines 383-491): reject only when the invoice is
already `PAGADA` (a `REEMBOLSADA` invoice passes), when the caller is not
the order's waiter (nor a superuser) or when the payment method is missing
or unknown.  The amount is the request's `monto_pagado`; a missing,
unparsable or zero/empty value falls back to the invoice total (modelled by
`monto_param = none` for missing/unparsable).  The invoice then becomes
`PAGADA` with the paid timestamp set REGARDLESS of whether the amount
covers the total -- a shortfall is only recorded in the appended
observations note -- and a physical table not already free is freed. -/
def api_marcar_factura_pagada (db : DB) (factura_id : Nat) (userId : Nat)
    (is_superuser : Bool) (metodo_pago : String) (cliente_nombre : String)
    (monto_param : Option Rat) (observaciones_param : String) :
    MarcarPagadaResult × DB :=
  match db.getFactura factura_id with
  | none =>
    ({ success := false, status := 404, monto_pagado := 0, cambio := 0,
       faltante := 0, mesa_liberada := false }, db)
  | some factura =>
    match db.getOrden factura.ordenId with
    | none =>
      ({ success := false, status := 500, monto_pagado := 0, cambio := 0,
         faltante := 0, mesa_liberada := false }, db)
    | some orden =>
      if orden.meseroId != userId && !is_superuser then
        ({ success := false, status := 403, monto_pagado := 0, cambio := 0,
           faltante := 0, mesa_liberada := false }, db)
      else if factura.estado_pago == "PAGADA" then
        ({ success := false, status := 400, monto_pagado := 0, cambio := 0,
           faltante := 0, mesa_liberada := false }, db)
      else if metodo_pago == "" then
        ({ success := false, status := 400, monto_pagado := 0, cambio := 0,
           faltante := 0, mesa_liberada := false }, db)
      else if !(METODOS_PAGO.contains metodo_pago) then
        ({ success := false, status := 400, monto_pagado := 0, cambio := 0,
           faltante := 0, mesa_liberada := false }, db)
      else
        let monto_pagado :=
          match monto_param with
          | some m => if m == 0 then factura.total else m
          | none => factura.total
        let cambio := monto_pagado - factura.total
        let obs_pago := notaPago metodo_pago monto_pagado factura.total
          observaciones_param
        let nuevas_obs :=
          if factura.observaciones != "" then
            factura.observaciones ++ "\n" ++ obs_pago
          else obs_pago
        let db1 := db.saveFactura
          { factura with
              estado_pago := "PAGADA",
              metodo_pago := metodo_pago,
              pagado_en := some db.now,
              cliente_nombre :=
                if cliente_nombre != "" then cliente_nombre
                else factura.cliente_nombre,
              observaciones := nuevas_obs }
        match db1.getMesa orden.mesaId with
        | none =>
          ({ success := false, status := 500, monto_pagado := 0, cambio := 0,
             faltante := 0, mesa_liberada := false }, db1)
        | some mesa =>
          let db2 :=
            if mesa.numero != 0 && mesa.numero != 50 && mesa.estado != "LIBRE" then
              db1.saveMesa { mesa with estado := "LIBRE" }
            else db1
          ({ success := true, status := 200, monto_pagado := monto_pagado,
             cambio := max 0 cambio,
             faltante := if cambio < 0 then -cambio else 0,
             mesa_liberada := mesa.numero != 0 && mesa.numero != 50 }, db2)

/-- Insert an order into a list sorted by ascending id (`order_by('id')`). -/
def insertarPorId (o : Orden) : List Orden → List Orden
  | [] => [o]
  | x :: xs => if o.id ≤ x.id then o :: x :: xs else x :: insertarPorId o xs

/-- Sort orders by ascending id (`Orden.objects...order_by('id')`). -/
def ordenarPorId (os : List Orden) : List Orden :=
  os.foldr insertarPorId []

/-- One order's contribution to the kitchen state string:
`"{orden.id}:{orden.estado}:{':'.join(productos)}"` with each line item
rendered as `"{po.id}:{po.estado}:{po.cantidad}"`. -/
def lineaEstadoOrden (db : DB) (o : Orden) : String :=
  let productos := (db.productosOrdenados o.id).map
    (fun po => toString po.id ++ ":" ++ po.estado ++ ":" ++ toString po.cantidad)
  toString o.id ++ ":" ++ o.estado ++ ":" ++ String.intercalate ":" productos

/-- `core.utils.generar_hash_estado_cocina`: the digest over the kitchen
state.  Only orders in `EN_PROCESO` or `NUEVA` enter the state string
(`LISTA` and `SERVIDA` orders are invisible to it), and the notification
counters are NOT part of it.  The Python function returns
`md5(estado_string)`; since md5 is a fixed deterministic function, the
digest is modelled by the state string itself -- equal state strings give
equal md5 digests, which is the property the theorems use. -/
def generar_hash_estado_cocina (db : DB) : String :=
  let ordenes := ordenarPorId (db.ordenes.filter
    (fun o => o.estado == "EN_PROCESO" || o.estado == "NUEVA"))
  String.intercalate "|" (ordenes.map (lineaEstadoOrden db))

/-- `core.utils.long_polling_cocina`, specialised to a database that does
not change during the poll (the loop then either returns a change on its
first digest comparison or times out): recompute the digest, compare it
with the client's last-seen one, and report `(cambios, hash)`. -/
def long_polling_cocina (db : DB) (hash_anterior : Option String) :
    Bool × String :=
  let hash_actual := generar_hash_estado_cocina db
  if some hash_actual != hash_anterior then (true, hash_actual)
  else (false, hash_actual)

/-- The debounce cache: `cache` keys to the timestamp of the last allowed
request (`time.time()` values, modelled as `Rat` seconds). -/
abbrev DebounceCache := List (String × Rat)

/-- `cache.get(key)`. -/
def cacheGet (c : DebounceCache) (k : String) : Option Rat :=
  (c.find? (fun e => e.1 == k)).map (fun e => e.2)

/-- `cache.set(key, value, timeout)` (the TTL is not modelled). -/
def cacheSet (c : DebounceCache) (k : String) (v : Rat) : DebounceCache :=
  (c.filter (fun e => e.1 != k)) ++ [(k, v)]

/-- `cache.delete(key)`. -/
def cacheDelete (c : DebounceCache) (k : String) : DebounceCache :=
  c.filter (fun e => e.1 != k)

/-- `core.decorators.generate_debounce_key` for the no-payload case:
`"debounce_{user_id}:{view_name}"`. -/
def generate_debounce_key (user_id : String) (view_name : String) : String :=
  "debounce_" ++ user_id ++ ":" ++ view_name

/-- What the guarded view does when invoked: return a response body or
raise an exception. -/
inductive VistaResultado where
  | respuesta (cuerpo : String)
  | excepcion (mensaje : String)
  deriving Repr, DecidableEq

/-- Outcome of one request through `debounce_request`: blocked with a 429
carrying the remaining wait (`debounce_remaining`/`retry_after`), answered
by the view, or the view's exception propagated (after the guard cleared
its record). -/
inductive DebounceOutcome where
  | bloqueado (retry_after : Rat)
  | respondido (cuerpo : String)
  | propagado (mensaje : String)
  deriving Repr, DecidableEq

/-- Running the guarded view once the cooldown check has passed
(core/decorators.py lines 134-143): store the current timestamp, execute
the view, and on an exception delete the cache record before re-raising. -/
def ejecutarVista (cache : DebounceCache) (key : String) (current_time : Rat)
    (vista : VistaResultado) : DebounceOutcome × DebounceCache :=
  let cache1 := cacheSet cache key current_time
  match vista with
  | .respuesta cuerpo => (.respondido cuerpo, cache1)
  | .excepcion mensaje => (.propagado mensaje, cacheDelete cache1 key)

/-- `core.decorators.debounce_request` (lines 74-146), one request: if the
cache holds a timestamp for the key and less than `delay` has elapsed,
reject with a structured too-soon response carrying the remaining wait and
leave the cache untouched (the view does not run); otherwise record the
current time and run the view, clearing the record if the view raises. -/
def debounce_request (delay : Rat) (cache : DebounceCache) (key : String)
    (current_time : Rat) (vista : VistaResultado) :
    DebounceOutcome × DebounceCache :=
  match cacheGet cache key with
  | some last_request_time =>
    let time_since_last := current_time - last_request_time
    if time_since_last < delay then
      (.bloqueado (delay - time_since_last), cache)
    else ejecutarVista cache key current_time vista
  | none => ejecutarVista cache key current_time vista

/-! ### Concrete fixtures

Small database states used to evaluate the operations at specific inputs. -/

/-- A product with 3 units in stock at price 5. -/
def productoTres : Producto :=
  { id := 1, nombre := "P", cantidad := 3, precio := 5,
    is_available := true, is_active := true }

/-- A free physical table (number 5). -/
def mesaFisicaLibre : Mesa :=
  { id := 1, numero := 5, estado := "LIBRE", is_active := true }

/-- State for the duplicate-line order: product 1 with stock 3 and a free
physical table. -/
def dbStockTres : DB :=
  { productos := [productoTres], mesas := [mesaFisicaLibre], ordenes := [],
    ordenProductos := [], facturas := [], notifCocina := 0, notifStock := 0,
    now := 100 }

/-- A request that names product 1 in TWO lines of 2 units each: 4 units
against a stock of 3, yet each line alone passes the per-line check. -/
def pedidoDoble : List ItemPedido :=
  [{ id := 1, cantidad := 2, observaciones := "" },
   { id := 1, cantidad := 2, observaciones := "" }]

/-- The virtual delivery table (number 0), currently marked occupied (the
real-time create view occupies it unconditionally). -/
def mesaVirtualOcupada : Mesa :=
  { id := 2, numero := 0, estado := "OCUPADA", is_active := true }

/-- A ready (`LISTA`) order on the virtual table with its single line item
already `LISTO`. -/
def ordenListaVirtual : Orden :=
  { id := 1, meseroId := 7, mesaId := 2, estado := "LISTA",
    observaciones := "", listo_en := some 90 }

/-- The `LISTO` line item of `ordenListaVirtual`. -/
def itemListoVirtual : OrdenProducto :=
  { id := 1, ordenId := 1, productoId := 1, cantidad := 1,
    precio_unitario := 5, estado := "LISTO", observaciones := "",
    listo_en := some 90 }

/-- State with a ready order on the occupied virtual table. -/
def dbVirtual : DB :=
  { productos := [productoTres], mesas := [mesaVirtualOcupada],
    ordenes := [ordenListaVirtual], ordenProductos := [itemListoVirtual],
    facturas := [], notifCocina := 0, notifStock := 0, now := 100 }

/-- An order already `SERVIDA` that still owns a `PENDIENTE` line item. -/
def ordenServidaPend : Orden :=
  { id := 3, meseroId := 7, mesaId := 1, estado := "SERVIDA",
    observaciones := "", listo_en := none }

/-- The `PENDIENTE` line item of `ordenServidaPend`. -/
def itemPendServida : OrdenProducto :=
  { id := 3, ordenId := 3, productoId := 1, cantidad := 1,
    precio_unitario := 5, estado := "PENDIENTE", observaciones := "",
    listo_en := none }

/-- State with a `PENDIENTE` item inside a `SERVIDA` order. -/
def dbOrdenServida : DB :=
  { productos := [productoTres], mesas := [mesaFisicaLibre],
    ordenes := [ordenServidaPend], ordenProductos := [itemPendServida],
    facturas := [], notifCocina := 0, notifStock := 0, now := 100 }

/-- A second, in-progress order whose line item keeps the kitchen digest
non-trivial while the `LISTA` order is served. -/
def ordenEnProceso : Orden :=
  { id := 2, meseroId := 7, mesaId := 1, estado := "EN_PROCESO",
    observaciones := "", listo_en := none }

/-- The `PENDIENTE` line item of `ordenEnProceso`. -/
def itemPendiente : OrdenProducto :=
  { id := 2, ordenId := 2, productoId := 1, cantidad := 2,
    precio_unitario := 5, estado := "PENDIENTE", observaciones := "",
    listo_en := none }

/-- State for the same-digest poll: a `LISTA` order about to be served
(outside the kitchen digest's `EN_PROCESO`/`NUEVA` filter) next to an
`EN_PROCESO` order, with the kitchen counter at 3. -/
def dbServir : DB :=
  { productos := [productoTres], mesas := [mesaVirtualOcupada, mesaFisicaLibre],
    ordenes := [ordenListaVirtual, ordenEnProceso],
    ordenProductos := [itemListoVirtual, itemPendiente],
    facturas := [], notifCocina := 3, notifStock := 0, now := 100 }

/-- A physical table (number 3), occupied. -/
def mesaFisicaOcupada : Mesa :=
  { id := 3, numero := 3, estado := "OCUPADA", is_active := true }

/-- A served order on the occupied physical table. -/
def ordenServidaFact : Orden :=
  { id := 4, meseroId := 7, mesaId := 3, estado := "SERVIDA",
    observaciones := "", listo_en := some 95 }

/-- An unpaid invoice of total 10 for `ordenServidaFact`. -/
def facturaDiez : Factura :=
  { id := 1, ordenId := 4, subtotal := 10, total := 10,
    metodo_pago := "PENDIENTE", estado_pago := "NO_PAGADA",
    cliente_nombre := "", observaciones := "", pagado_en := none }

/-- State holding the 10.00 unpaid invoice of a served order. -/
def dbFacturaDiez : DB :=
  { productos := [productoTres], mesas := [mesaFisicaOcupada],
    ordenes := [ordenServidaFact], ordenProductos := [],
    facturas := [facturaDiez], notifCocina := 0, notifStock := 0, now := 100 }

/-- An order under preparation used by the decrement scenarios. -/
def ordenEnProcesoDec : Orden :=
  { id := 5, meseroId := 7, mesaId := 1, estado := "EN_PROCESO",
    observaciones := "", listo_en := none }

/-- A `PENDIENTE` line of 3 units of product 1. -/
def itemDosUnidades : OrdenProducto :=
  { id := 5, ordenId := 5, productoId := 1, cantidad := 3,
    precio_unitario := 5, estado := "PENDIENTE", observaciones := "",
    listo_en := none }

/-- A `PENDIENTE` line of a single unit of product 1. -/
def itemUnaUnidad : OrdenProducto :=
  { id := 6, ordenId := 5, productoId := 1, cantidad := 1,
    precio_unitario := 5, estado := "PENDIENTE", observaciones := "",
    listo_en := none }

/-- State for the decrement scenarios. -/
def dbDecremento : DB :=
  { productos := [productoTres], mesas := [mesaFisicaLibre],
    ordenes := [ordenEnProcesoDec],
    ordenProductos := [itemDosUnidades, itemUnaUnidad],
    facturas := [], notifCocina := 0, notifStock := 0, now := 100 }

/-- A paid invoice of total 12 for the refund scenario, owning order 6. -/
def facturaPagada : Factura :=
  { id := 2, ordenId := 6, subtotal := 12, total := 12,
    metodo_pago := "EFECTIVO", estado_pago := "PAGADA",
    cliente_nombre := "", observaciones := "", pagado_en := some 99 }

/-- The served order behind `facturaPagada`. -/
def ordenReembolso : Orden :=
  { id := 6, meseroId := 7, mesaId := 1, estado := "SERVIDA",
    observaciones := "", listo_en := some 95 }

/-- The order's single line: 2 units of product 1 at 6 each. -/
def itemReembolso : OrdenProducto :=
  { id := 7, ordenId := 6, productoId := 1, cantidad := 2,
    precio_unitario := 6, estado := "LISTO", observaciones := "",
    listo_en := some 95 }

/-- State for the refund scenario. -/
def dbReembolso : DB :=
  { productos := [productoTres], mesas := [mesaFisicaLibre],
    ordenes := [ordenReembolso], ordenProductos := [itemReembolso],
    facturas := [facturaPagada], notifCocina := 0, notifStock := 0, now := 100 }

/-! ### Database lemmas

`save` rewrites the one row whose id matches and keeps every other table;
`get` after `save` is the mapped lookup.  The replacement function keeps
row ids, so `find?` commutes with it. -/

theorem find?_replace {α : Type} (idOf : α → Nat) (l : List α) (a : α) (i : Nat) :
    (l.map (fun q => if idOf q == idOf a then a else q)).find?
        (fun q => idOf q == i) =
      (l.find? (fun q => idOf q == i)).map
        (fun q => if idOf q == idOf a then a else q) := by
  induction l with
  | nil => rfl
  | cons x xs ih =>
    simp only [List.map_cons]
    have hid : idOf (if idOf x == idOf a then a else x) = idOf x := by
      by_cases h : idOf x = idOf a
      · simp [h]
      · simp [h]
    by_cases hi : idOf x = i
    · have h1 : List.find? (fun q => idOf q == i)
          ((if idOf x == idOf a then a else x) ::
            List.map (fun q => if idOf q == idOf a then a else q) xs) =
          some (if idOf x == idOf a then a else x) := by
        apply List.find?_cons_of_pos
        show (idOf (if idOf x == idOf a then a else x) == i) = true
        rw [hid]; simp [hi]
      have h2 : List.find? (fun q => idOf q == i) (x :: xs) = some x :=
        List.find?_cons_of_pos _ (by simp [hi])
      rw [h1, h2]; rfl
    · have h1 : List.find? (fun q => idOf q == i)
          ((if idOf x == idOf a then a else x) ::
            List.map (fun q => if idOf q == idOf a then a else q) xs) =
          List.find? (fun q => idOf q == i)
            (List.map (fun q => if idOf q == idOf a then a else q) xs) := by
        apply List.find?_cons_of_neg
        show ¬ (idOf (if idOf x == idOf a then a else x) == i) = true
        rw [hid]; simp [hi]
      have h2 : List.find? (fun q => idOf q == i) (x :: xs) =
          List.find? (fun q => idOf q == i) xs :=
        List.find?_cons_of_neg _ (by simp [hi])
      rw [h1, h2]; exact ih

theorem getProducto_saveProducto (db : DB) (p : Producto) (i : Nat) :
    (db.saveProducto p).getProducto i =
      (db.getProducto i).map (fun q => if q.id == p.id then p else q) :=
  find?_replace Producto.id db.productos p i

theorem getMesa_saveMesa (db : DB) (m : Mesa) (i : Nat) :
    (db.saveMesa m).getMesa i =
      (db.getMesa i).map (fun q => if q.id == m.id then m else q) :=
  find?_replace Mesa.id db.mesas m i

theorem getOrden_saveOrden (db : DB) (o : Orden) (i : Nat) :
    (db.saveOrden o).getOrden i =
      (db.getOrden i).map (fun q => if q.id == o.id then o else q) :=
  find?_replace Orden.id db.ordenes o i

theorem getOrdenProducto_saveOrdenProducto (db : DB) (po : OrdenProducto) (i : Nat) :
    (db.saveOrdenProducto po).getOrdenProducto i =
      (db.getOrdenProducto i).map (fun q => if q.id == po.id then po else q) :=
  find?_replace OrdenProducto.id db.ordenProductos po i

theorem getFactura_saveFactura (db : DB) (f : Factura) (i : Nat) :
    (db.saveFactura f).getFactura i =
      (db.getFactura i).map (fun q => if q.id == f.id then f else q) :=
  find?_replace Factura.id db.facturas f i

/-- A successful lookup's row carries the looked-up id. -/
theorem id_of_getFactura {db : DB} {i : Nat} {f : Factura}
    (h : db.getFactura i = some f) : f.id = i := by
  have := List.find?_some h
  simpa using this

theorem id_of_getMesa {db : DB} {i : Nat} {m : Mesa}
    (h : db.getMesa i = some m) : m.id = i := by
  have := List.find?_some h
  simpa using this

theorem id_of_getOrden {db : DB} {i : Nat} {o : Orden}
    (h : db.getOrden i = some o) : o.id = i := by
  have := List.find?_some h
  simpa using this

theorem id_of_getOrdenProducto {db : DB} {i : Nat} {po : OrdenProducto}
    (h : db.getOrdenProducto i = some po) : po.id = i := by
  have := List.find?_some h
  simpa using this

theorem id_of_getProducto {db : DB} {i : Nat} {p : Producto}
    (h : db.getProducto i = some p) : p.id = i := by
  have := List.find?_some h
  simpa using this

/-! Frame lemmas: a save touches only its own table, the notifiers touch
only their counter, and none of them moves the clock. -/

@[simp] theorem getOrden_saveFactura (db : DB) (f : Factura) (i : Nat) :
    (db.saveFactura f).getOrden i = db.getOrden i := rfl
@[simp] theorem getMesa_saveFactura (db : DB) (f : Factura) (i : Nat) :
    (db.saveFactura f).getMesa i = db.getMesa i := rfl
@[simp] theorem getProducto_saveFactura (db : DB) (f : Factura) (i : Nat) :
    (db.saveFactura f).getProducto i = db.getProducto i := rfl
@[simp] theorem getOrdenProducto_saveFactura (db : DB) (f : Factura) (i : Nat) :
    (db.saveFactura f).getOrdenProducto i = db.getOrdenProducto i := rfl
@[simp] theorem getFactura_saveMesa (db : DB) (m : Mesa) (i : Nat) :
    (db.saveMesa m).getFactura i = db.getFactura i := rfl
@[simp] theorem getOrden_saveMesa (db : DB) (m : Mesa) (i : Nat) :
    (db.saveMesa m).getOrden i = db.getOrden i := rfl
@[simp] theorem getProducto_saveMesa (db : DB) (m : Mesa) (i : Nat) :
    (db.saveMesa m).getProducto i = db.getProducto i := rfl
@[simp] theorem getOrdenProducto_saveMesa (db : DB) (m : Mesa) (i : Nat) :
    (db.saveMesa m).getOrdenProducto i = db.getOrdenProducto i := rfl
@[simp] theorem getFactura_saveOrden (db : DB) (o : Orden) (i : Nat) :
    (db.saveOrden o).getFactura i = db.getFactura i := rfl
@[simp] theorem getMesa_saveOrden (db : DB) (o : Orden) (i : Nat) :
    (db.saveOrden o).getMesa i = db.getMesa i := rfl
@[simp] theorem getProducto_saveOrden (db : DB) (o : Orden) (i : Nat) :
    (db.saveOrden o).getProducto i = db.getProducto i := rfl
@[simp] theorem getOrdenProducto_saveOrden (db : DB) (o : Orden) (i : Nat) :
    (db.saveOrden o).getOrdenProducto i = db.getOrdenProducto i := rfl
@[simp] theorem getFactura_saveProducto (db : DB) (p : Producto) (i : Nat) :
    (db.saveProducto p).getFactura i = db.getFactura i := rfl
@[simp] theorem getMesa_saveProducto (db : DB) (p : Producto) (i : Nat) :
    (db.saveProducto p).getMesa i = db.getMesa i := rfl
@[simp] theorem getOrden_saveProducto (db : DB) (p : Producto) (i : Nat) :
    (db.saveProducto p).getOrden i = db.getOrden i := rfl
@[simp] theorem getOrdenProducto_saveProducto (db : DB) (p : Producto) (i : Nat) :
    (db.saveProducto p).getOrdenProducto i = db.getOrdenProducto i := rfl
@[simp] theorem getFactura_saveOrdenProducto (db : DB) (po : OrdenProducto) (i : Nat) :
    (db.saveOrdenProducto po).getFactura i = db.getFactura i := rfl
@[simp] theorem getMesa_saveOrdenProducto (db : DB) (po : OrdenProducto) (i : Nat) :
    (db.saveOrdenProducto po).getMesa i = db.getMesa i := rfl
@[simp] theorem getOrden_saveOrdenProducto (db : DB) (po : OrdenProducto) (i : Nat) :
    (db.saveOrdenProducto po).getOrden i = db.getOrden i := rfl
@[simp] theorem getProducto_saveOrdenProducto (db : DB) (po : OrdenProducto) (i : Nat) :
    (db.saveOrdenProducto po).getProducto i = db.getProducto i := rfl

@[simp] theorem getFactura_notifCocina (db : DB) (i : Nat) :
    (notificar_cambio_cocina db).getFactura i = db.getFactura i := rfl
@[simp] theorem getMesa_notifCocina (db : DB) (i : Nat) :
    (notificar_cambio_cocina db).getMesa i = db.getMesa i := rfl
@[simp] theorem getOrden_notifCocina (db : DB) (i : Nat) :
    (notificar_cambio_cocina db).getOrden i = db.getOrden i := rfl
@[simp] theorem getProducto_notifCocina (db : DB) (i : Nat) :
    (notificar_cambio_cocina db).getProducto i = db.getProducto i := rfl
@[simp] theorem getOrdenProducto_notifCocina (db : DB) (i : Nat) :
    (notificar_cambio_cocina db).getOrdenProducto i = db.getOrdenProducto i := rfl
@[simp] theorem getFactura_notifStock (db : DB) (i : Nat) :
    (notificar_cambio_stock db).getFactura i = db.getFactura i := rfl
@[simp] theorem getMesa_notifStock (db : DB) (i : Nat) :
    (notificar_cambio_stock db).getMesa i = db.getMesa i := rfl
@[simp] theorem getOrden_notifStock (db : DB) (i : Nat) :
    (notificar_cambio_stock db).getOrden i = db.getOrden i := rfl
@[simp] theorem getProducto_notifStock (db : DB) (i : Nat) :
    (notificar_cambio_stock db).getProducto i = db.getProducto i := rfl
@[simp] theorem getOrdenProducto_notifStock (db : DB) (i : Nat) :
    (notificar_cambio_stock db).getOrdenProducto i = db.getOrdenProducto i := rfl

@[simp] theorem pendientes_saveFactura (db : DB) (f : Factura) (i : Nat) :
    pendientesCount (db.saveFactura f) i = pendientesCount db i := rfl
@[simp] theorem pendientes_saveMesa (db : DB) (m : Mesa) (i : Nat) :
    pendientesCount (db.saveMesa m) i = pendientesCount db i := rfl
@[simp] theorem pendientes_saveOrden (db : DB) (o : Orden) (i : Nat) :
    pendientesCount (db.saveOrden o) i = pendientesCount db i := rfl
@[simp] theorem pendientes_saveProducto (db : DB) (p : Producto) (i : Nat) :
    pendientesCount (db.saveProducto p) i = pendientesCount db i := rfl
@[simp] theorem pendientes_notifCocina (db : DB) (i : Nat) :
    pendientesCount (notificar_cambio_cocina db) i = pendientesCount db i := rfl
@[simp] theorem pendientes_notifStock (db : DB) (i : Nat) :
    pendientesCount (notificar_cambio_stock db) i = pendientesCount db i := rfl

@[simp] theorem now_saveFactura (db : DB) (f : Factura) :
    (db.saveFactura f).now = db.now := rfl
@[simp] theorem now_saveMesa (db : DB) (m : Mesa) :
    (db.saveMesa m).now = db.now := rfl
@[simp] theorem now_saveOrden (db : DB) (o : Orden) :
    (db.saveOrden o).now = db.now := rfl
@[simp] theorem now_saveProducto (db : DB) (p : Producto) :
    (db.saveProducto p).now = db.now := rfl
@[simp] theorem now_saveOrdenProducto (db : DB) (po : OrdenProducto) :
    (db.saveOrdenProducto po).now = db.now := rfl
@[simp] theorem now_notifCocina (db : DB) :
    (notificar_cambio_cocina db).now = db.now := rfl
@[simp] theorem now_notifStock (db : DB) :
    (notificar_cambio_stock db).now = db.now := rfl

@[simp] theorem notifCocina_saveFactura (db : DB) (f : Factura) :
    (db.saveFactura f).notifCocina = db.notifCocina := rfl
@[simp] theorem notifCocina_saveMesa (db : DB) (m : Mesa) :
    (db.saveMesa m).notifCocina = db.notifCocina := rfl
@[simp] theorem notifCocina_saveOrden (db : DB) (o : Orden) :
    (db.saveOrden o).notifCocina = db.notifCocina := rfl
@[simp] theorem notifCocina_saveProducto (db : DB) (p : Producto) :
    (db.saveProducto p).notifCocina = db.notifCocina := rfl
@[simp] theorem notifCocina_saveOrdenProducto (db : DB) (po : OrdenProducto) :
    (db.saveOrdenProducto po).notifCocina = db.notifCocina := rfl
@[simp] theorem notifCocina_notifStock (db : DB) :
    (notificar_cambio_stock db).notifCocina = db.notifCocina := rfl
@[simp] theorem notifCocina_notificar (db : DB) :
    (notificar_cambio_cocina db).notifCocina = db.notifCocina + 1 := rfl
@[simp] theorem notifStock_saveFactura (db : DB) (f : Factura) :
    (db.saveFactura f).notifStock = db.notifStock := rfl
@[simp] theorem notifStock_saveMesa (db : DB) (m : Mesa) :
    (db.saveMesa m).notifStock = db.notifStock := rfl
@[simp] theorem notifStock_saveOrden (db : DB) (o : Orden) :
    (db.saveOrden o).notifStock = db.notifStock := rfl
@[simp] theorem notifStock_saveProducto (db : DB) (p : Producto) :
    (db.saveProducto p).notifStock = db.notifStock := rfl
@[simp] theorem notifStock_saveOrdenProducto (db : DB) (po : OrdenProducto) :
    (db.saveOrdenProducto po).notifStock = db.notifStock := rfl
@[simp] theorem notifStock_notifCocina (db : DB) :
    (notificar_cambio_cocina db).notifStock = db.notifStock := rfl
@[simp] theorem notifStock_notificar (db : DB) :
    (notificar_cambio_stock db).notifStock = db.notifStock + 1 := rfl

@[simp] theorem facturas_saveMesa (db : DB) (m : Mesa) :
    (db.saveMesa m).facturas = db.facturas := rfl
@[simp] theorem facturas_saveOrden (db : DB) (o : Orden) :
    (db.saveOrden o).facturas = db.facturas := rfl
@[simp] theorem facturas_saveProducto (db : DB) (p : Producto) :
    (db.saveProducto p).facturas = db.facturas := rfl
@[simp] theorem facturas_notifCocina (db : DB) :
    (notificar_cambio_cocina db).facturas = db.facturas := rfl
@[simp] theorem ordenProductos_saveFactura (db : DB) (f : Factura) :
    (db.saveFactura f).ordenProductos = db.ordenProductos := rfl
@[simp] theorem ordenProductos_saveMesa (db : DB) (m : Mesa) :
    (db.saveMesa m).ordenProductos = db.ordenProductos := rfl
@[simp] theorem ordenProductos_saveOrden (db : DB) (o : Orden) :
    (db.saveOrden o).ordenProductos = db.ordenProductos := rfl
@[simp] theorem ordenProductos_saveProducto (db : DB) (p : Producto) :
    (db.saveProducto p).ordenProductos = db.ordenProductos := rfl
@[simp] theorem ordenProductos_notifCocina (db : DB) :
    (notificar_cambio_cocina db).ordenProductos = db.ordenProductos := rfl
@[simp] theorem ordenProductos_notifStock (db : DB) :
    (notificar_cambio_stock db).ordenProductos = db.ordenProductos := rfl

@[simp] theorem calcular_saveFactura (db : DB) (f : Factura) (i : Nat) :
    calcular_total_orden (db.saveFactura f) i = calcular_total_orden db i := rfl
@[simp] theorem calcular_saveMesa (db : DB) (m : Mesa) (i : Nat) :
    calcular_total_orden (db.saveMesa m) i = calcular_total_orden db i := rfl
@[simp] theorem calcular_saveOrden (db : DB) (o : Orden) (i : Nat) :
    calcular_total_orden (db.saveOrden o) i = calcular_total_orden db i := rfl

/-- The refund restock loop touches only the product table. -/
@[simp] theorem getFactura_reponerStock (items : List OrdenProducto) (db : DB)
    (i : Nat) : (reponerStock items db).getFactura i = db.getFactura i := by
  induction items generalizing db with
  | nil => rfl
  | cons po rest ih =>
    simp only [reponerStock]
    cases db.getProducto po.productoId <;> simp [ih]

/-- The refund restock loop does not signal the kitchen counter. -/
@[simp] theorem notifCocina_reponerStock (items : List OrdenProducto) (db : DB) :
    (reponerStock items db).notifCocina = db.notifCocina := by
  induction items generalizing db with
  | nil => rfl
  | cons po rest ih =>
    simp only [reponerStock]
    cases db.getProducto po.productoId <;> simp [ih]

/-- The refund restock loop does not signal the stock counter either. -/
@[simp] theorem notifStock_reponerStock (items : List OrdenProducto) (db : DB) :
    (reponerStock items db).notifStock = db.notifStock := by
  induction items generalizing db with
  | nil => rfl
  | cons po rest ih =>
    simp only [reponerStock]
    cases db.getProducto po.productoId <;> simp [ih]

/-- Running the refund restock loop adds, to each product present in the
database, the summed quantity of the processed line items that reference
it. -/
theorem reponerStock_getProducto (items : List OrdenProducto) (db : DB)
    (pid : Nat) (producto : Producto)
    (hp : db.getProducto pid = some producto) :
    (reponerStock items db).getProducto pid =
      some { producto with cantidad := producto.cantidad +
        ((items.filter (fun po => po.productoId == pid)).map
          OrdenProducto.cantidad).sum } := by
  induction items generalizing db producto with
  | nil => simp [reponerStock, hp]
  | cons po rest ih =>
    simp only [reponerStock]
    by_cases hpid : po.productoId = pid
    · have hp' : db.getProducto po.productoId = some producto := by
        rw [hpid]; exact hp
      rw [hp']
      have hstep : (db.saveProducto
          { producto with cantidad := producto.cantidad + po.cantidad }).getProducto
          pid = some { producto with cantidad := producto.cantidad + po.cantidad } := by
        rw [getProducto_saveProducto, hp]
        simp
      rw [ih _ _ hstep]
      simp [List.filter_cons, hpid, add_assoc]
    · cases hq : db.getProducto po.productoId with
      | none =>
        rw [ih _ _ hp]
        simp [List.filter_cons, hpid]
      | some q =>
        have hq' : (db.saveProducto
            { q with cantidad := q.cantidad + po.cantidad }).getProducto pid =
            some producto := by
          rw [getProducto_saveProducto, hp]
          have h1 : producto.id = pid := id_of_getProducto hp
          have h2 : q.id = po.productoId := id_of_getProducto hq
          simp [h1, h2]
          intro h
          exact absurd h.symm hpid
        rw [ih _ _ hq']
        simp [List.filter_cons, hpid]

/-! Frame lemmas for the row-insert operations. -/

@[simp] theorem getOrden_insertFactura (db : DB) (f : Factura) (i : Nat) :
    (db.insertFactura f).getOrden i = db.getOrden i := rfl
@[simp] theorem getMesa_insertFactura (db : DB) (f : Factura) (i : Nat) :
    (db.insertFactura f).getMesa i = db.getMesa i := rfl
@[simp] theorem getProducto_insertFactura (db : DB) (f : Factura) (i : Nat) :
    (db.insertFactura f).getProducto i = db.getProducto i := rfl
@[simp] theorem getOrdenProducto_insertFactura (db : DB) (f : Factura) (i : Nat) :
    (db.insertFactura f).getOrdenProducto i = db.getOrdenProducto i := rfl
@[simp] theorem pendientes_insertFactura (db : DB) (f : Factura) (i : Nat) :
    pendientesCount (db.insertFactura f) i = pendientesCount db i := rfl
@[simp] theorem now_insertFactura (db : DB) (f : Factura) :
    (db.insertFactura f).now = db.now := rfl
@[simp] theorem notifCocina_insertFactura (db : DB) (f : Factura) :
    (db.insertFactura f).notifCocina = db.notifCocina := rfl
@[simp] theorem notifStock_insertFactura (db : DB) (f : Factura) :
    (db.insertFactura f).notifStock = db.notifStock := rfl
@[simp] theorem ordenProductos_insertFactura (db : DB) (f : Factura) :
    (db.insertFactura f).ordenProductos = db.ordenProductos := rfl
@[simp] theorem facturas_insertFactura (db : DB) (f : Factura) :
    (db.insertFactura f).facturas = db.facturas ++ [f] := rfl
@[simp] theorem notifCocina_insertOrden (db : DB) (o : Orden) :
    (db.insertOrden o).notifCocina = db.notifCocina := rfl
@[simp] theorem notifStock_insertOrden (db : DB) (o : Orden) :
    (db.insertOrden o).notifStock = db.notifStock := rfl
@[simp] theorem notifCocina_insertOrdenProducto (db : DB) (po : OrdenProducto) :
    (db.insertOrdenProducto po).notifCocina = db.notifCocina := rfl
@[simp] theorem notifStock_insertOrdenProducto (db : DB) (po : OrdenProducto) :
    (db.insertOrdenProducto po).notifStock = db.notifStock := rfl

/-- Replacing the row with `f.id` leaves a filter that matched no row
still matching none, provided no other row carries `f.id`. -/
theorem filter_map_replace_none (xs : List Factura) (f f' : Factura) (o : Nat)
    (hnot : f.id ∉ xs.map Factura.id)
    (hfil : xs.filter (fun x => x.ordenId == o) = []) :
    (xs.map (fun q => if q.id = f.id then f' else q)).filter
      (fun x => x.ordenId == o) = [] := by
  induction xs with
  | nil => rfl
  | cons y ys ih =>
    have hyid : ¬ y.id = f.id := by
      intro h
      exact hnot (by simp [h])
    have hnot' : f.id ∉ ys.map Factura.id := by
      intro h
      exact hnot (by simp [h])
    have hy : ¬ (y.ordenId == o) = true := by
      intro h
      rw [List.filter_cons_of_pos (p := fun (x : Factura) => x.ordenId == o) h] at hfil
      exact List.cons_ne_nil _ _ hfil
    rw [List.filter_cons_of_neg (p := fun (x : Factura) => x.ordenId == o) hy] at hfil
    rw [List.map_cons, if_neg hyid,
      List.filter_cons_of_neg (p := fun (x : Factura) => x.ordenId == o) hy]
    exact ih hnot' hfil

/-- When exactly one row matches the order filter and row ids are unique,
replacing that row (id preserved, still matching) leaves exactly the
replacement matching. -/
theorem filter_map_replace_unique (l : List Factura) (f f' : Factura) (o : Nat)
    (hids : (l.map Factura.id).Nodup)
    (hfil : l.filter (fun x => x.ordenId == o) = [f])
    (hid : f'.id = f.id) (hor : (f'.ordenId == o) = true) :
    (l.map (fun q => if q.id = f.id then f' else q)).filter
      (fun x => x.ordenId == o) = [f'] := by
  induction l with
  | nil => simp at hfil
  | cons x xs ih =>
    have hids' : (x.id :: xs.map Factura.id).Nodup := by
      rw [List.map_cons] at hids
      exact hids
    have hhead : x.id ∉ xs.map Factura.id := (List.nodup_cons.mp hids').1
    have htail : (xs.map Factura.id).Nodup := (List.nodup_cons.mp hids').2
    rw [List.map_cons]
    by_cases hx : (x.ordenId == o) = true
    · rw [List.filter_cons_of_pos (p := fun (x : Factura) => x.ordenId == o) hx] at hfil
      have hxf : x = f := (List.cons_eq_cons.mp hfil).1
      have hrest : xs.filter (fun x => x.ordenId == o) = [] :=
        (List.cons_eq_cons.mp hfil).2
      subst hxf
      rw [if_pos rfl]
      rw [List.filter_cons_of_pos (p := fun (x : Factura) => x.ordenId == o) hor]
      rw [filter_map_replace_none xs x f' o hhead hrest]
    · rw [List.filter_cons_of_neg (p := fun (x : Factura) => x.ordenId == o) hx] at hfil
      have hmem : f ∈ xs := by
        have hmf : f ∈ xs.filter (fun x => x.ordenId == o) := by
          rw [hfil]; exact List.mem_singleton_self f
        exact List.mem_of_mem_filter hmf
      have hxid : ¬ x.id = f.id := by
        intro h
        exact hhead (h ▸ List.mem_map_of_mem Factura.id hmem)
      rw [if_neg hxid,
        List.filter_cons_of_neg (p := fun (x : Factura) => x.ordenId == o) hx]
      exact ih htail hfil

/-- Deleting a key from the debounce cache removes every record for it. -/
theorem cacheGet_cacheDelete (c : DebounceCache) (k : String) :
    cacheGet (cacheDelete c k) k = none := by
  unfold cacheGet cacheDelete
  induction c with
  | nil => rfl
  | cons e es ih =>
    by_cases h : e.1 = k
    · rw [List.filter_cons, if_neg (by simp [h])]
      exact ih
    · rw [List.filter_cons, if_pos (by simp [h]),
        List.find?_cons_of_neg _ (by simp [h])]
      exact ih

/-- Successful serve: with the order `LISTA`, no pending items, the waiter
matching, and at most one invoice for the order among invoices with unique
ids, `entregar_orden` succeeds, marks the order `SERVIDA`, touches no line
item, frees exactly the physical tables, leaves EXACTLY ONE invoice for
the order carrying subtotal = total = the order's total and state
`NO_PAGADA` (updating the existing row in place when there was one,
inserting one fresh row when there was none), and signals the kitchen
counter. -/
theorem entregar_orden_exitoso (db : DB) (orden : Orden) (mesa : Mesa)
    (hids : (db.facturas.map Factura.id).Nodup)
    (ho : db.getOrden orden.id = some orden)
    (hm : db.getMesa orden.mesaId = some mesa)
    (hlista : orden.estado = "LISTA")
    (hpend : pendientesCount db orden.id = 0)
    (huniq : (db.facturas.filter (fun f => f.ordenId == orden.id)).length ≤ 1) :
    (entregar_orden db orden.id orden.meseroId false).1.success = true ∧
    (entregar_orden db orden.id orden.meseroId false).2.getOrden orden.id =
      some { orden with estado := "SERVIDA" } ∧
    (entregar_orden db orden.id orden.meseroId false).2.ordenProductos =
      db.ordenProductos ∧
    pendientesCount (entregar_orden db orden.id orden.meseroId false).2
      orden.id = 0 ∧
    (¬mesa.numero = 0 → ¬mesa.numero = 50 →
      (entregar_orden db orden.id orden.meseroId false).2.getMesa orden.mesaId =
        some { mesa with estado := "LIBRE" }) ∧
    (mesa.numero = 0 ∨ mesa.numero = 50 →
      (entregar_orden db orden.id orden.meseroId false).2.getMesa orden.mesaId =
        some mesa) ∧
    ((entregar_orden db orden.id orden.meseroId false).2.facturas.filter
      (fun f => f.ordenId == orden.id)).length = 1 ∧
    (∀ f1 ∈ (entregar_orden db orden.id orden.meseroId false).2.facturas.filter
        (fun f => f.ordenId == orden.id),
      f1.subtotal = calcular_total_orden db orden.id ∧
      f1.total = calcular_total_orden db orden.id ∧
      f1.estado_pago = "NO_PAGADA") ∧
    (∀ f0, db.facturas.filter (fun f => f.ordenId == orden.id) = [f0] →
      (entregar_orden db orden.id orden.meseroId false).1.factura_creada =
        false ∧
      (entregar_orden db orden.id orden.meseroId false).1.facturaId =
        some f0.id ∧
      (entregar_orden db orden.id orden.meseroId false).2.facturas.length =
        db.facturas.length) ∧
    (db.facturas.filter (fun f => f.ordenId == orden.id) = [] →
      (entregar_orden db orden.id orden.meseroId false).1.factura_creada =
        true) ∧
    (entregar_orden db orden.id orden.meseroId false).2.notifCocina =
      db.notifCocina + 1 := by
  cases hfil : db.facturas.filter (fun f => f.ordenId == orden.id) with
  | nil =>
    refine ⟨?_, ?_, ?_, ?_, ?_, ?_, ?_, ?_, ?_, ?_, ?_⟩
    · by_cases hv : ¬mesa.numero = 0 ∧ ¬mesa.numero = 50 <;>
        simp [entregar_orden, ho, hm, hlista, hpend, hfil, hv]
    · by_cases hv : ¬mesa.numero = 0 ∧ ¬mesa.numero = 50 <;>
        simp [entregar_orden, ho, hm, hlista, hpend, hfil, hv,
          getOrden_saveOrden]
    · by_cases hv : ¬mesa.numero = 0 ∧ ¬mesa.numero = 50 <;>
        simp [entregar_orden, ho, hm, hlista, hpend, hfil, hv]
    · by_cases hv : ¬mesa.numero = 0 ∧ ¬mesa.numero = 50 <;>
        simp [entregar_orden, ho, hm, hlista, hpend, hfil, hv]
    · intro h0 h50
      simp [entregar_orden, ho, hm, hlista, hpend, hfil, h0, h50,
        getMesa_saveMesa]
    · intro hv
      have hv' : ¬(¬mesa.numero = 0 ∧ ¬mesa.numero = 50) := by tauto
      simp [entregar_orden, ho, hm, hlista, hpend, hfil, hv']
    · by_cases hv : ¬mesa.numero = 0 ∧ ¬mesa.numero = 50 <;>
        simp [entregar_orden, ho, hm, hlista, hpend, hfil, hv,
          List.filter_append]
    · intro f1 hf1
      by_cases hv : ¬mesa.numero = 0 ∧ ¬mesa.numero = 50 <;>
        [skip; skip] <;>
        (simp [entregar_orden, ho, hm, hlista, hpend, hfil, hv,
          List.filter_append] at hf1 ⊢) <;>
        simp [hf1]
    · intro f0 hf0
      simp at hf0
    · intro _
      by_cases hv : ¬mesa.numero = 0 ∧ ¬mesa.numero = 50 <;>
        simp [entregar_orden, ho, hm, hlista, hpend, hfil, hv]
    · by_cases hv : ¬mesa.numero = 0 ∧ ¬mesa.numero = 50 <;>
        simp [entregar_orden, ho, hm, hlista, hpend, hfil, hv]
  | cons f0 t =>
    have ht : t = [] := by
      rw [hfil] at huniq
      simpa using huniq
    subst ht
    have hf0mem : f0 ∈ db.facturas.filter (fun f => f.ordenId == orden.id) := by
      rw [hfil]; exact List.mem_singleton_self f0
    have hf0p : (f0.ordenId == orden.id) = true :=
      (List.mem_filter.mp hf0mem).2
    have hupd : ∀ T : Rat,
        (db.facturas.map (fun q =>
          if q.id = f0.id then
            { f0 with estado_pago := "NO_PAGADA", subtotal := T, total := T }
          else q)).filter (fun f => f.ordenId == orden.id) =
        [{ f0 with estado_pago := "NO_PAGADA", subtotal := T, total := T }] := by
      intro T
      exact filter_map_replace_unique db.facturas f0
        { f0 with estado_pago := "NO_PAGADA", subtotal := T, total := T }
        orden.id hids hfil rfl hf0p
    refine ⟨?_, ?_, ?_, ?_, ?_, ?_, ?_, ?_, ?_, ?_, ?_⟩
    · by_cases hv : ¬mesa.numero = 0 ∧ ¬mesa.numero = 50 <;>
        simp [entregar_orden, ho, hm, hlista, hpend, hfil, hv]
    · by_cases hv : ¬mesa.numero = 0 ∧ ¬mesa.numero = 50 <;>
        simp [entregar_orden, ho, hm, hlista, hpend, hfil, hv,
          getOrden_saveOrden]
    · by_cases hv : ¬mesa.numero = 0 ∧ ¬mesa.numero = 50 <;>
        simp [entregar_orden, ho, hm, hlista, hpend, hfil, hv,
          DB.saveFactura]
    · by_cases hv : ¬mesa.numero = 0 ∧ ¬mesa.numero = 50 <;>
        simp [entregar_orden, ho, hm, hlista, hpend, hfil, hv]
    · intro h0 h50
      simp [entregar_orden, ho, hm, hlista, hpend, hfil, h0, h50,
        getMesa_saveMesa]
    · intro hv
      have hv' : ¬(¬mesa.numero = 0 ∧ ¬mesa.numero = 50) := by tauto
      simp [entregar_orden, ho, hm, hlista, hpend, hfil, hv']
    · by_cases hv : ¬mesa.numero = 0 ∧ ¬mesa.numero = 50 <;>
        simp [entregar_orden, ho, hm, hlista, hpend, hfil, hv,
          DB.saveFactura, hupd]
    · intro f1 hf1
      by_cases hv : ¬mesa.numero = 0 ∧ ¬mesa.numero = 50 <;>
        (simp [entregar_orden, ho, hm, hlista, hpend, hfil, hv,
          DB.saveFactura, hupd] at hf1) <;>
        simp [hf1]
    · intro f0' hf0'
      have hff : f0' = f0 := ((List.cons_eq_cons.mp hf0').1).symm
      subst hff
      refine ⟨?_, ?_, ?_⟩ <;>
        by_cases hv : ¬mesa.numero = 0 ∧ ¬mesa.numero = 50 <;>
          simp [entregar_orden, ho, hm, hlista, hpend, hfil, hv,
            DB.saveFactura]
    · intro hemp
      simp at hemp
    · by_cases hv : ¬mesa.numero = 0 ∧ ¬mesa.numero = 50 <;>
        simp [entregar_orden, ho, hm, hlista, hpend, hfil, hv]

/-- The creation loop of the waiter service never touches the counters. -/
@[simp] theorem notifCocina_crearProductosOrden (o : Nat)
    (vals : List (Producto × Int × String)) (db : DB) :
    (crearProductosOrden o vals db).notifCocina = db.notifCocina := by
  induction vals generalizing db with
  | nil => rfl
  | cons v rest ih =>
    obtain ⟨p, c, ob⟩ := v
    simp [crearProductosOrden, ih]

/-- The creation loop of the waiter service never touches the counters. -/
@[simp] theorem notifStock_crearProductosOrden (o : Nat)
    (vals : List (Producto × Int × String)) (db : DB) :
    (crearProductosOrden o vals db).notifStock = db.notifStock := by
  induction vals generalizing db with
  | nil => rfl
  | cons v rest ih =>
    obtain ⟨p, c, ob⟩ := v
    simp [crearProductosOrden, ih]

/-- The creation loop of the real-time view never touches the counters. -/
@[simp] theorem notifCocina_apiCrearProductos (o : Nat)
    (items : List ItemPedido) (db : DB) :
    (apiCrearProductos o items db).notifCocina = db.notifCocina := by
  induction items generalizing db with
  | nil => rfl
  | cons item rest ih =>
    simp only [apiCrearProductos]
    cases db.getProducto item.id <;> simp [ih]

/-- The creation loop of the real-time view never touches the counters. -/
@[simp] theorem notifStock_apiCrearProductos (o : Nat)
    (items : List ItemPedido) (db : DB) :
    (apiCrearProductos o items db).notifStock = db.notifStock := by
  induction items generalizing db with
  | nil => rfl
  | cons item rest ih =>
    simp only [apiCrearProductos]
    cases db.getProducto item.id <;> simp [ih]

/-! ### Claim theorems -/

/-- C2 (amended): serving an order -- through `MeseroService.entregar_orden`
or `api_marcar_orden_servida` -- succeeds only when the order is `LISTA`
with zero `PENDIENTE` line items, and a rejected serve mutates nothing; on
success the order becomes `SERVIDA` with still zero `PENDIENTE` items (so
an order never reaches `SERVIDA` while an item is `PENDIENTE`); the service
path frees the table only when it is physical and leaves a virtual table
(number 0 or 50) untouched, while the API path sets the table `LIBRE`
unconditionally, virtual tables included. -/
theorem servir_orden_contrato (db : DB) (orden : Orden) (mesa : Mesa)
    (ho : db.getOrden orden.id = some orden)
    (hm : db.getMesa orden.mesaId = some mesa) :
    (orden.estado ≠ "LISTA" →
      (entregar_orden db orden.id orden.meseroId false).1.success = false ∧
      (entregar_orden db orden.id orden.meseroId false).2 = db ∧
      (api_marcar_orden_servida db orden.id).1.success = false ∧
      (api_marcar_orden_servida db orden.id).2 = db) ∧
    (orden.estado = "LISTA" → 0 < pendientesCount db orden.id →
      (entregar_orden db orden.id orden.meseroId false).1.success = false ∧
      (entregar_orden db orden.id orden.meseroId false).2 = db ∧
      (api_marcar_orden_servida db orden.id).1.success = false ∧
      (api_marcar_orden_servida db orden.id).2 = db) ∧
    (orden.estado = "LISTA" → pendientesCount db orden.id = 0 →
      (db.facturas.map Factura.id).Nodup →
      (db.facturas.filter (fun f => f.ordenId == orden.id)).length ≤ 1 →
      (entregar_orden db orden.id orden.meseroId false).1.success = true ∧
      (entregar_orden db orden.id orden.meseroId false).2.getOrden orden.id =
        some { orden with estado := "SERVIDA" } ∧
      pendientesCount (entregar_orden db orden.id orden.meseroId false).2
        orden.id = 0 ∧
      (¬mesa.numero = 0 → ¬mesa.numero = 50 →
        (entregar_orden db orden.id orden.meseroId false).2.getMesa
          orden.mesaId = some { mesa with estado := "LIBRE" }) ∧
      (mesa.numero = 0 ∨ mesa.numero = 50 →
        (entregar_orden db orden.id orden.meseroId false).2.getMesa
          orden.mesaId = some mesa)) ∧
    (orden.estado = "LISTA" → pendientesCount db orden.id = 0 →
      (api_marcar_orden_servida db orden.id).1.success = true ∧
      (api_marcar_orden_servida db orden.id).2.getOrden orden.id =
        some { orden with estado := "SERVIDA" } ∧
      pendientesCount (api_marcar_orden_servida db orden.id).2 orden.id = 0 ∧
      (api_marcar_orden_servida db orden.id).2.getMesa orden.mesaId =
        some { mesa with estado := "LIBRE" }) := by
  refine ⟨?_, ?_, ?_, ?_⟩
  · intro h
    refine ⟨?_, ?_, ?_, ?_⟩ <;>
      simp [entregar_orden, api_marcar_orden_servida, ho, h]
  · intro h hp
    have hp' : pendientesCount db orden.id > 0 := hp
    refine ⟨?_, ?_, ?_, ?_⟩ <;>
      simp [entregar_orden, api_marcar_orden_servida, ho, h, hp']
  · intro h1 h2 h3 h4
    have H := entregar_orden_exitoso db orden mesa h3 ho hm h1 h2 h4
    exact ⟨H.1, H.2.1, H.2.2.2.1, H.2.2.2.2.1, H.2.2.2.2.2.1⟩
  · intro h1 h2
    refine ⟨?_, ?_, ?_, ?_⟩ <;>
      simp [api_marcar_orden_servida, ho, hm, h1, h2, getOrden_saveOrden,
        getMesa_saveMesa]

/-- Witness for C2's amended theorem: serving the ready order on the
occupied virtual table 0 through the API path succeeds and sets the table
`LIBRE` (the service path would have left it untouched). -/
theorem servir_orden_contrato_witness :
    ordenListaVirtual.estado = "LISTA" ∧
    pendientesCount dbVirtual ordenListaVirtual.id = 0 ∧
    ((api_marcar_orden_servida dbVirtual ordenListaVirtual.id).1.success = true ∧
     (api_marcar_orden_servida dbVirtual ordenListaVirtual.id).2.getMesa
       ordenListaVirtual.mesaId =
       some { mesaVirtualOcupada with estado := "LIBRE" }) := by
  refine ⟨rfl, rfl, ?_⟩
  have H := (servir_orden_contrato dbVirtual ordenListaVirtual
    mesaVirtualOcupada rfl rfl).2.2.2 rfl rfl
  exact ⟨H.1, H.2.2.2⟩

/-- C3: when an order (with at most one invoice among invoices with unique
row ids) is served, exactly one invoice for it exists afterwards, carrying
subtotal = total = the sum of quantity times captured unit price over the
order's line items and payment state `NO_PAGADA`; a pre-existing invoice is
updated in place (same id, no new row), and when none existed exactly one
is created. -/
theorem factura_unica_al_entregar (db : DB) (orden : Orden) (mesa : Mesa)
    (hids : (db.facturas.map Factura.id).Nodup)
    (ho : db.getOrden orden.id = some orden)
    (hm : db.getMesa orden.mesaId = some mesa)
    (hlista : orden.estado = "LISTA")
    (hpend : pendientesCount db orden.id = 0)
    (huniq : (db.facturas.filter (fun f => f.ordenId == orden.id)).length ≤ 1) :
    (entregar_orden db orden.id orden.meseroId false).1.success = true ∧
    ((entregar_orden db orden.id orden.meseroId false).2.facturas.filter
      (fun f => f.ordenId == orden.id)).length = 1 ∧
    (∀ f1 ∈ (entregar_orden db orden.id orden.meseroId false).2.facturas.filter
        (fun f => f.ordenId == orden.id),
      f1.subtotal = calcular_total_orden db orden.id ∧
      f1.total = calcular_total_orden db orden.id ∧
      f1.estado_pago = "NO_PAGADA") ∧
    (∀ f0, db.facturas.filter (fun f => f.ordenId == orden.id) = [f0] →
      (entregar_orden db orden.id orden.meseroId false).1.factura_creada =
        false ∧
      (entregar_orden db orden.id orden.meseroId false).1.facturaId =
        some f0.id ∧
      (entregar_orden db orden.id orden.meseroId false).2.facturas.length =
        db.facturas.length) ∧
    (db.facturas.filter (fun f => f.ordenId == orden.id) = [] →
      (entregar_orden db orden.id orden.meseroId false).1.factura_creada =
        true) := by
  have H := entregar_orden_exitoso db orden mesa hids ho hm hlista hpend huniq
  exact ⟨H.1, H.2.2.2.2.2.2.1, H.2.2.2.2.2.2.2.1, H.2.2.2.2.2.2.2.2.1,
    H.2.2.2.2.2.2.2.2.2.1⟩

/-- Witness for C3: serving the invoice-less ready order of `dbVirtual`
creates exactly one invoice for it. -/
theorem factura_unica_al_entregar_witness :
    ((entregar_orden dbVirtual ordenListaVirtual.id
        ordenListaVirtual.meseroId false).1.success = true ∧
     ((entregar_orden dbVirtual ordenListaVirtual.id
        ordenListaVirtual.meseroId false).2.facturas.filter
        (fun f => f.ordenId == ordenListaVirtual.id)).length = 1) ∧
    (entregar_orden dbVirtual ordenListaVirtual.id
      ordenListaVirtual.meseroId false).1.factura_creada = true := by
  have H := factura_unica_al_entregar dbVirtual ordenListaVirtual
    mesaVirtualOcupada (by decide) rfl rfl rfl rfl (by decide)
  exact ⟨⟨H.1, H.2.1⟩, H.2.2.2.2 rfl⟩

/-- C8 (amended): the mutating operations of the order lifecycle -- order
creation (service and API), marking an item ready, decrementing an item,
and serving (service and API) -- each signal the cache-backed notification
counters by incrementing them; but the counters are never incorporated into
the polled digest, so the poll's outcome is entirely independent of the
counter value and same-digest coincidences are NOT broken (and the refund
path mutates stock without signalling any counter at all). -/
theorem notificacion_contador_contrato :
    (∀ (db : DB) (n : Nat) (h : Option String),
      long_polling_cocina { db with notifCocina := n } h =
        long_polling_cocina db h) ∧
    (∀ (db : DB) (oid mid : Nat) (su : Bool),
      (entregar_orden db oid mid su).1.success = true →
      (entregar_orden db oid mid su).2.notifCocina = db.notifCocina + 1) ∧
    (∀ (db : DB) (i : Nat),
      (marcar_producto_listo db i).1.success = true →
      (marcar_producto_listo db i).2.notifCocina = db.notifCocina + 1) ∧
    (∀ (db : DB) (i : Nat),
      (decrementar_producto db i).1.success = true →
      (decrementar_producto db i).2.notifCocina = db.notifCocina + 1 ∧
      (decrementar_producto db i).2.notifStock = db.notifStock + 1) ∧
    (∀ (db : DB) (m mid : Nat) (items : List ItemPedido) (obs : String),
      (crear_orden_completa db m mid items obs).1.success = true →
      (crear_orden_completa db m mid items obs).2.notifCocina =
        db.notifCocina + 1 ∧
      (crear_orden_completa db m mid items obs).2.notifStock =
        db.notifStock + 1) ∧
    (∀ (db : DB) (m mid : Nat) (items : List ItemPedido) (obs : String),
      (api_crear_orden_tiempo_real db m mid items obs).1.success = true →
      (api_crear_orden_tiempo_real db m mid items obs).2.notifCocina =
        db.notifCocina + 1 ∧
      (api_crear_orden_tiempo_real db m mid items obs).2.notifStock =
        db.notifStock + 1) ∧
    (∀ (db : DB) (oid : Nat),
      (api_marcar_orden_servida db oid).1.success = true →
      (api_marcar_orden_servida db oid).2.notifCocina = db.notifCocina + 1) ∧
    (∀ (db : DB) (fid : Nat) (mot : String) (m : Option Rat),
      (procesar_reembolso db fid mot m).2.notifCocina = db.notifCocina ∧
      (procesar_reembolso db fid mot m).2.notifStock = db.notifStock) := by
  refine ⟨?_, ?_, ?_, ?_, ?_, ?_, ?_, ?_⟩
  · intro db n h
    rfl
  · intro db oid mid su hs
    simp only [entregar_orden] at hs ⊢
    repeat' split at hs
    all_goals try simp_all
    all_goals (repeat' split)
    all_goals simp_all
  · intro db i hs
    simp only [marcar_producto_listo] at hs ⊢
    repeat' split at hs
    all_goals try simp_all
    all_goals (repeat' split)
    all_goals simp_all
  · intro db i hs
    simp only [decrementar_producto] at hs ⊢
    repeat' split at hs
    all_goals try simp_all
    all_goals (repeat' split)
    all_goals try simp_all
    all_goals omega
  · intro db m mid items obs hs
    simp only [crear_orden_completa] at hs ⊢
    repeat' split at hs
    all_goals try simp_all
    all_goals (repeat' split)
    all_goals simp_all
  · intro db m mid items obs hs
    simp only [api_crear_orden_tiempo_real] at hs ⊢
    repeat' split at hs
    all_goals simp_all
  · intro db oid hs
    simp only [api_marcar_orden_servida] at hs ⊢
    repeat' split at hs
    all_goals simp_all
  · intro db fid mot m
    simp only [procesar_reembolso]
    repeat' split
    all_goals simp

/-- Witness for C8's amended theorem: the kitchen poll gives the same
answer whatever the counter holds, shown at a concrete state with the
counter forced to 0 and to 999. -/
theorem notificacion_contador_contrato_witness :
    long_polling_cocina { dbServir with notifCocina := 999 }
        (some (generar_hash_estado_cocina dbServir)) =
      long_polling_cocina dbServir (some (generar_hash_estado_cocina dbServir)) ∧
    (entregar_orden dbServir 1 7 false).1.success = true := by
  constructor
  · exact notificacion_contador_contrato.1 dbServir 999
      (some (generar_hash_estado_cocina dbServir))
  · decide

/-- C9: a repeat invocation of a guarded action by the same actor (same
debounce key) within the cooldown window is rejected with a structured
too-soon response carrying the remaining wait time, leaving the cache
record in place and never running the view; and when the guarded view
raises, the guard deletes its cache record at once, so the actor's next
attempt -- at ANY later time, even inside the original cooldown -- is not
blocked but runs the view. -/
theorem debounce_rechaza_y_limpia
    (delay : Rat) (cache : DebounceCache) (key : String) (t1 t2 : Rat)
    (vista : VistaResultado) (mensaje : String)
    (hlast : cacheGet cache key = some t1)
    (hpronto : t2 - t1 < delay) :
    debounce_request delay cache key t2 vista =
      (DebounceOutcome.bloqueado (delay - (t2 - t1)), cache) ∧
    (∀ (c : DebounceCache) (t : Rat),
      (debounce_request delay c key t (.excepcion mensaje)).1 =
        DebounceOutcome.propagado mensaje →
      cacheGet (debounce_request delay c key t (.excepcion mensaje)).2 key =
        none) ∧
    (∀ (c : DebounceCache) (t t3 : Rat) (v : VistaResultado),
      (debounce_request delay c key t (.excepcion mensaje)).1 =
        DebounceOutcome.propagado mensaje →
      (debounce_request delay
          (debounce_request delay c key t (.excepcion mensaje)).2
          key t3 v).1 =
        (match v with
         | .respuesta cuerpo => DebounceOutcome.respondido cuerpo
         | .excepcion m => DebounceOutcome.propagado m)) := by
  refine ⟨?_, ?_, ?_⟩
  · unfold debounce_request
    rw [hlast]
    simp [hpronto]
  · intro c t _h
    unfold debounce_request
    cases hc : cacheGet c key with
    | none => simp [ejecutarVista, cacheGet_cacheDelete]
    | some t0 =>
      by_cases hb : t - t0 < delay
      · exfalso
        unfold debounce_request at _h
        rw [hc] at _h
        simp [hb] at _h
      · simp [hb, ejecutarVista, cacheGet_cacheDelete]
  · intro c t t3 v h1
    have hnone : cacheGet (debounce_request delay c key t (.excepcion mensaje)).2
        key = none := by
      unfold debounce_request
      cases hc : cacheGet c key with
      | none => simp [ejecutarVista, cacheGet_cacheDelete]
      | some t0 =>
        by_cases hb : t - t0 < delay
        · exfalso
          unfold debounce_request at h1
          rw [hc] at h1
          simp [hb] at h1
        · simp [hb, ejecutarVista, cacheGet_cacheDelete]
    generalize hc2 : (debounce_request delay c key t (.excepcion mensaje)).2 = c2 at hnone
    unfold debounce_request
    rw [hnone]
    cases v <;> simp [ejecutarVista]

/-- C4: paying an invoice rejects if it is already `PAGADA` or
`REEMBOLSADA` and rejects any non-positive amount, all without mutating
anything; otherwise, for amount >= total the payment state becomes
`PAGADA`, the paid timestamp is recorded, the change amount - total is
reported and the order's table is freed unless it is virtual (number 0 or
50); for 0 < amount < total the state becomes `PARCIAL`, no change is due
and neither timestamp nor table is touched. -/
theorem pago_factura_contrato (db : DB) (factura : Factura) (orden : Orden)
    (mesa : Mesa) (metodo : String) (monto : Rat) (obs : String)
    (hf : db.getFactura factura.id = some factura)
    (ho : db.getOrden factura.ordenId = some orden)
    (hm : db.getMesa orden.mesaId = some mesa)
    (hmet : metodo ∈ METODOS_PAGO) :
    (factura.estado_pago = "PAGADA" →
      (procesar_pago_factura db factura.id metodo monto obs).1.success = false ∧
      (procesar_pago_factura db factura.id metodo monto obs).2 = db) ∧
    (factura.estado_pago = "REEMBOLSADA" →
      (procesar_pago_factura db factura.id metodo monto obs).1.success = false ∧
      (procesar_pago_factura db factura.id metodo monto obs).2 = db) ∧
    (monto ≤ 0 →
      (procesar_pago_factura db factura.id metodo monto obs).1.success = false ∧
      (procesar_pago_factura db factura.id metodo monto obs).2 = db) ∧
    (factura.estado_pago ≠ "PAGADA" → factura.estado_pago ≠ "REEMBOLSADA" →
      0 < monto → factura.total ≤ monto →
      (procesar_pago_factura db factura.id metodo monto obs).1.success = true ∧
      (procesar_pago_factura db factura.id metodo monto obs).1.cambio =
        monto - factura.total ∧
      ((procesar_pago_factura db factura.id metodo monto obs).2.getFactura
        factura.id).map Factura.estado_pago = some "PAGADA" ∧
      ((procesar_pago_factura db factura.id metodo monto obs).2.getFactura
        factura.id).map Factura.pagado_en = some (some db.now) ∧
      (mesa.numero ≠ 0 → mesa.numero ≠ 50 →
        ((procesar_pago_factura db factura.id metodo monto obs).2.getMesa
          orden.mesaId).map Mesa.estado = some "LIBRE") ∧
      (mesa.numero = 0 ∨ mesa.numero = 50 →
        (procesar_pago_factura db factura.id metodo monto obs).2.getMesa
          orden.mesaId = some mesa)) ∧
    (factura.estado_pago ≠ "PAGADA" → factura.estado_pago ≠ "REEMBOLSADA" →
      0 < monto → monto < factura.total →
      (procesar_pago_factura db factura.id metodo monto obs).1.success = true ∧
      (procesar_pago_factura db factura.id metodo monto obs).1.cambio = 0 ∧
      (procesar_pago_factura db factura.id metodo monto obs).1.pago_completo =
        false ∧
      ((procesar_pago_factura db factura.id metodo monto obs).2.getFactura
        factura.id).map Factura.estado_pago = some "PARCIAL" ∧
      ((procesar_pago_factura db factura.id metodo monto obs).2.getFactura
        factura.id).map Factura.pagado_en = some factura.pagado_en ∧
      (procesar_pago_factura db factura.id metodo monto obs).2.getMesa
        orden.mesaId = some mesa) := by
  refine ⟨?_, ?_, ?_, ?_, ?_⟩
  · intro h
    constructor <;> simp [procesar_pago_factura, hf, h]
  · intro h
    by_cases h1 : factura.estado_pago = "PAGADA"
    · constructor <;> simp [procesar_pago_factura, hf, h1]
    · constructor <;> simp [procesar_pago_factura, hf, h, h1]
  · intro h
    by_cases h1 : factura.estado_pago = "PAGADA"
    · constructor <;> simp [procesar_pago_factura, hf, h1]
    · by_cases h2 : factura.estado_pago = "REEMBOLSADA"
      · constructor <;> simp [procesar_pago_factura, hf, h1, h2]
      · constructor <;> simp [procesar_pago_factura, hf, h1, h2, hmet, h]
  · intro h1 h2 h3 h4
    have hn : ¬ monto ≤ 0 := not_le.mpr h3
    refine ⟨?_, ?_, ?_, ?_, ?_, ?_⟩
    · simp [procesar_pago_factura, hf, h1, h2, hmet, hn, h4]
    · simp only [procesar_pago_factura, hf]
      simp [h1, h2, hmet, hn, h4]
      intro hle
      have he : monto = factura.total := le_antisymm hle h4
      rw [he, sub_self]
    · by_cases hmn : ¬mesa.numero = 0 ∧ ¬mesa.numero = 50 <;>
        simp [procesar_pago_factura, hf, ho, hm, h1, h2, hmet, hn, h4, hmn,
          getFactura_saveFactura]
    · by_cases hmn : ¬mesa.numero = 0 ∧ ¬mesa.numero = 50 <;>
        simp [procesar_pago_factura, hf, ho, hm, h1, h2, hmet, hn, h4, hmn,
          getFactura_saveFactura]
    · intro hz hcinc
      simp [procesar_pago_factura, hf, ho, hm, h1, h2, hmet, hn, h4, hz, hcinc,
        getFactura_saveFactura, getMesa_saveMesa]
    · intro hv
      have hmn : ¬(¬mesa.numero = 0 ∧ ¬mesa.numero = 50) := by
        rcases hv with hv | hv <;> simp [hv]
      simp [procesar_pago_factura, hf, ho, hm, h1, h2, hmet, hn, h4, hmn,
        getFactura_saveFactura, hm]
  · intro h1 h2 h3 h4
    have hn : ¬ monto ≤ 0 := not_le.mpr h3
    have hg : ¬ factura.total ≤ monto := not_le.mpr h4
    refine ⟨?_, ?_, ?_, ?_, ?_, ?_⟩ <;>
      simp [procesar_pago_factura, hf, ho, hm, h1, h2, hmet, hn, hg, h4.not_lt,
        getFactura_saveFactura]

/-- Witness for C4: an unpaid invoice of total 10 paid with 15 in cash:
success, change 5, state `PAGADA`, timestamp set, physical table freed. -/
theorem pago_factura_contrato_witness :
    (dbFacturaDiez.getFactura facturaDiez.id = some facturaDiez ∧
     facturaDiez.estado_pago ≠ "PAGADA") ∧
    ((procesar_pago_factura dbFacturaDiez facturaDiez.id "EFECTIVO" 15 "").1.success
        = true ∧
     (procesar_pago_factura dbFacturaDiez facturaDiez.id "EFECTIVO" 15 "").1.cambio
        = 5) := by
  refine ⟨⟨rfl, by decide⟩, ?_, ?_⟩
  · exact ((pago_factura_contrato dbFacturaDiez facturaDiez ordenServidaFact
      mesaFisicaOcupada "EFECTIVO" 15 "" rfl rfl rfl (by decide)).2.2.2.1
      (by decide) (by decide) (by norm_num) (by norm_num [facturaDiez])).1
  · have h := ((pago_factura_contrato dbFacturaDiez facturaDiez ordenServidaFact
      mesaFisicaOcupada "EFECTIVO" 15 "" rfl rfl rfl (by decide)).2.2.2.1
      (by decide) (by decide) (by norm_num) (by norm_num [facturaDiez])).2.1
    rw [h]
    norm_num [facturaDiez]

/-- C6: a decrement succeeds only on a non-`LISTO` item with quantity above
1 (and, as the code checks first, an order under preparation); a legal
decrement reduces the item's quantity by exactly one, returns one unit to
the product's stock and leaves the item `PENDIENTE`; a decrement attempt on
a `PENDIENTE` item with quantity 1 (in an order under preparation) is
rejected with the at-minimum error and mutates nothing; and the real-time
API view is the very same function. -/
theorem decrementar_contrato (db : DB) (po : OrdenProducto) (orden : Orden)
    (producto : Producto)
    (hpo : db.getOrdenProducto po.id = some po)
    (ho : db.getOrden po.ordenId = some orden)
    (hp : db.getProducto po.productoId = some producto) :
    ((decrementar_producto db po.id).1.success = true →
      po.estado ≠ "LISTO" ∧ 1 < po.cantidad) ∧
    ((orden.estado = "EN_PROCESO" ∨ orden.estado = "NUEVA") →
      po.estado = "PENDIENTE" → 1 < po.cantidad →
      (decrementar_producto db po.id).1.success = true ∧
      (decrementar_producto db po.id).1.nueva_cantidad = po.cantidad - 1 ∧
      (decrementar_producto db po.id).2.getOrdenProducto po.id =
        some { po with cantidad := po.cantidad - 1 } ∧
      ((decrementar_producto db po.id).2.getProducto po.productoId).map
        Producto.cantidad = some (producto.cantidad + 1)) ∧
    ((orden.estado = "EN_PROCESO" ∨ orden.estado = "NUEVA") →
      po.estado = "PENDIENTE" → po.cantidad = 1 →
      (decrementar_producto db po.id).1.success = false ∧
      (decrementar_producto db po.id).1.errores =
        ["No se puede decrementar: solo queda 1 unidad. Usa \"Marcar Listo\" para completar."] ∧
      (decrementar_producto db po.id).2 = db) ∧
    (∀ (db2 : DB) (i : Nat),
      api_decrementar_producto_tiempo_real db2 i = decrementar_producto db2 i) := by
  refine ⟨?_, ?_, ?_, fun db2 i => rfl⟩
  · intro hs
    by_cases hord : orden.estado = "EN_PROCESO" ∨ orden.estado = "NUEVA"
    · have hord' : ¬(¬orden.estado = "EN_PROCESO" ∧ ¬orden.estado = "NUEVA") := by
        tauto
      by_cases hl : po.estado = "LISTO"
      · exfalso
        simp [decrementar_producto, hpo, ho, hord', hl] at hs
      · by_cases hc : po.cantidad ≤ 1
        · exfalso
          simp [decrementar_producto, hpo, ho, hord', hl, hc] at hs
        · exact ⟨hl, not_le.mp hc⟩
    · exfalso
      have hord' : ¬orden.estado = "EN_PROCESO" ∧ ¬orden.estado = "NUEVA" := by
        tauto
      simp [decrementar_producto, hpo, ho, hord'] at hs
  · intro hord hpend hc
    have hord' : ¬(¬orden.estado = "EN_PROCESO" ∧ ¬orden.estado = "NUEVA") := by
      tauto
    have hl : ¬ po.estado = "LISTO" := by simp [hpend]
    have hc1 : ¬ po.cantidad ≤ 1 := not_le.mpr hc
    refine ⟨?_, ?_, ?_, ?_⟩ <;>
      simp [decrementar_producto, hpo, ho, hp, hord', hl, hc1, hpend,
        getOrdenProducto_saveOrdenProducto, getProducto_saveProducto]
  · intro hord hpend hc
    have hord' : ¬(¬orden.estado = "EN_PROCESO" ∧ ¬orden.estado = "NUEVA") := by
      tauto
    have hl : ¬ po.estado = "LISTO" := by simp [hpend]
    refine ⟨?_, ?_, ?_⟩ <;>
      simp [decrementar_producto, hpo, ho, hord', hl, hc]

/-- Witness for C6: a `PENDIENTE` line of quantity 3 in an `EN_PROCESO`
order is decremented to 2 and the stock rises from 3 to 4; a quantity-1
line is rejected at the minimum. -/
theorem decrementar_contrato_witness :
    ((decrementar_producto dbDecremento itemDosUnidades.id).1.success = true ∧
     (decrementar_producto dbDecremento itemDosUnidades.id).1.nueva_cantidad = 2) ∧
    ((decrementar_producto dbDecremento itemUnaUnidad.id).1.success = false ∧
     (decrementar_producto dbDecremento itemUnaUnidad.id).2 = dbDecremento) := by
  constructor
  · have h := (decrementar_contrato dbDecremento itemDosUnidades ordenEnProcesoDec
      productoTres rfl rfl rfl).2.1 (Or.inl rfl) rfl (by decide)
    exact ⟨h.1, by rw [h.2.1]; decide⟩
  · have h := (decrementar_contrato dbDecremento itemUnaUnidad ordenEnProcesoDec
      productoTres rfl rfl rfl).2.2.1 (Or.inl rfl) rfl (by decide)
    exact ⟨h.1, h.2.2⟩

/-- C7: refunding succeeds only on a `PAGADA` invoice; the amount defaults
to the full total when omitted and is rejected (without mutation) when it
exceeds the total; on success the invoice becomes `REEMBOLSADA` and every
product gets back the summed quantity of all the order's line items that
reference it, regardless of whether the refund amount is partial. -/
theorem reembolso_contrato (db : DB) (factura : Factura) (motivo : String)
    (hf : db.getFactura factura.id = some factura) :
    (factura.estado_pago ≠ "PAGADA" → ∀ monto : Option Rat,
      (procesar_reembolso db factura.id motivo monto).1.success = false ∧
      (procesar_reembolso db factura.id motivo monto).2 = db) ∧
    (factura.estado_pago = "PAGADA" → ∀ m : Rat, factura.total < m →
      (procesar_reembolso db factura.id motivo (some m)).1.success = false ∧
      (procesar_reembolso db factura.id motivo (some m)).2 = db) ∧
    (factura.estado_pago = "PAGADA" →
      (procesar_reembolso db factura.id motivo none).1.success = true ∧
      (procesar_reembolso db factura.id motivo none).1.monto_reembolsado =
        factura.total) ∧
    (factura.estado_pago = "PAGADA" → ∀ monto : Option Rat,
      (monto = none ∨ ∃ m, monto = some m ∧ m ≤ factura.total) →
      (procesar_reembolso db factura.id motivo monto).1.success = true ∧
      ((procesar_reembolso db factura.id motivo monto).2.getFactura
        factura.id).map Factura.estado_pago = some "REEMBOLSADA" ∧
      (∀ (pid : Nat) (producto : Producto),
        db.getProducto pid = some producto →
        ((procesar_reembolso db factura.id motivo monto).2.getProducto pid).map
          Producto.cantidad = some (producto.cantidad +
            (((db.productosOrdenados factura.ordenId).filter
              (fun po => po.productoId == pid)).map
              OrdenProducto.cantidad).sum))) := by
  refine ⟨?_, ?_, ?_, ?_⟩
  · intro h monto
    constructor <;> simp [procesar_reembolso, hf, h]
  · intro h m hm
    constructor <;> simp [procesar_reembolso, hf, h, hm]
  · intro h
    constructor <;> simp [procesar_reembolso, hf, h]
  · intro h monto hok
    have hguard : procesar_reembolso db factura.id motivo monto =
        ({ success := true, errores := [],
           monto_reembolsado := monto.getD factura.total },
         reponerStock
           ((db.saveFactura
              { factura with
                  estado_pago := "REEMBOLSADA",
                  observaciones := factura.observaciones ++ "\nReembolso: " ++
                    motivo }).productosOrdenados factura.ordenId)
           (db.saveFactura
              { factura with
                  estado_pago := "REEMBOLSADA",
                  observaciones := factura.observaciones ++ "\nReembolso: " ++
                    motivo })) := by
      rcases hok with hnone | ⟨m, hsome, hle⟩
      · subst hnone
        simp [procesar_reembolso, hf, h]
      · subst hsome
        simp [procesar_reembolso, hf, h, not_lt.mpr hle]
    rw [hguard]
    refine ⟨rfl, ?_, ?_⟩
    · rw [getFactura_reponerStock, getFactura_saveFactura, hf]
      simp
    · intro pid producto hp
      have hp1 : (db.saveFactura
          { factura with
              estado_pago := "REEMBOLSADA",
              observaciones := factura.observaciones ++ "\nReembolso: " ++
                motivo }).getProducto pid = some producto := hp
      rw [reponerStock_getProducto _ _ _ _ hp1]
      simp [DB.productosOrdenados]

/-- Witness for C7: refunding the paid 12.00 invoice with no explicit
amount refunds 12 and returns the order's 2 units of product 1 to stock
(3 to 5). -/
theorem reembolso_contrato_witness :
    facturaPagada.estado_pago = "PAGADA" ∧
    ((procesar_reembolso dbReembolso facturaPagada.id "cliente" none).1.success
      = true ∧
     ((procesar_reembolso dbReembolso facturaPagada.id "cliente" none).2.getProducto
       1).map Producto.cantidad = some 5) := by
  refine ⟨rfl, ?_, ?_⟩
  · exact ((reembolso_contrato dbReembolso facturaPagada "cliente" rfl).2.2.2
      rfl none (Or.inl rfl)).1
  · have h := ((reembolso_contrato dbReembolso facturaPagada "cliente" rfl).2.2.2
      rfl none (Or.inl rfl)).2.2 1 productoTres rfl
    rw [h]
    decide

/-- C10: for an invoice not already `PAGADA`, the mark-paid endpoint (with
a valid method and an authorised caller) always sets the state to `PAGADA`
with the paid timestamp, even when the supplied amount is below the total
-- a missing/unparsable or zero amount is silently replaced by the total --
and the shortfall only lands in the appended observations note (the totals
are untouched and no `PARCIAL` state ever arises), while a physical table
ends up `LIBRE`. -/
theorem marcar_factura_pagada_contrato (db : DB) (factura : Factura)
    (orden : Orden) (mesa : Mesa) (metodo : String) (cliente : String)
    (obs : String) (monto_param : Option Rat)
    (hf : db.getFactura factura.id = some factura)
    (ho : db.getOrden factura.ordenId = some orden)
    (hm : db.getMesa orden.mesaId = some mesa)
    (hnp : factura.estado_pago ≠ "PAGADA")
    (hmet0 : metodo ≠ "")
    (hmet : metodo ∈ METODOS_PAGO) :
    (api_marcar_factura_pagada db factura.id orden.meseroId false metodo
      cliente monto_param obs).1.success = true ∧
    ((monto_param = none ∨ monto_param = some 0) →
      (api_marcar_factura_pagada db factura.id orden.meseroId false metodo
        cliente monto_param obs).1.monto_pagado = factura.total) ∧
    (∀ m : Rat, monto_param = some m → m ≠ 0 →
      (api_marcar_factura_pagada db factura.id orden.meseroId false metodo
        cliente monto_param obs).1.monto_pagado = m) ∧
    ((api_marcar_factura_pagada db factura.id orden.meseroId false metodo
      cliente monto_param obs).2.getFactura factura.id).map
      Factura.estado_pago = some "PAGADA" ∧
    ((api_marcar_factura_pagada db factura.id orden.meseroId false metodo
      cliente monto_param obs).2.getFactura factura.id).map
      Factura.pagado_en = some (some db.now) ∧
    ((api_marcar_factura_pagada db factura.id orden.meseroId false metodo
      cliente monto_param obs).2.getFactura factura.id).map
      Factura.total = some factura.total ∧
    ((api_marcar_factura_pagada db factura.id orden.meseroId false metodo
      cliente monto_param obs).2.getFactura factura.id).map
      Factura.subtotal = some factura.subtotal ∧
    (∀ m : Rat, monto_param = some m → m ≠ 0 → m < factura.total →
      (api_marcar_factura_pagada db factura.id orden.meseroId false metodo
        cliente monto_param obs).1.faltante = factura.total - m ∧
      ((api_marcar_factura_pagada db factura.id orden.meseroId false metodo
        cliente monto_param obs).2.getFactura factura.id).map
        Factura.observaciones = some
          (if factura.observaciones ≠ "" then
            factura.observaciones ++ "\n" ++ notaPago metodo m factura.total obs
           else notaPago metodo m factura.total obs)) ∧
    (mesa.numero ≠ 0 → mesa.numero ≠ 50 →
      ((api_marcar_factura_pagada db factura.id orden.meseroId false metodo
        cliente monto_param obs).2.getMesa orden.mesaId).map
        Mesa.estado = some "LIBRE") := by
  have hrun : ∀ (m : Rat), monto_param = some m → m ≠ 0 →
      api_marcar_factura_pagada db factura.id orden.meseroId false metodo
        cliente monto_param obs =
      api_marcar_factura_pagada db factura.id orden.meseroId false metodo
        cliente monto_param obs := fun _ _ _ => rfl
  clear hrun
  rcases monto_param with _ | m
  · refine ⟨?_, ?_, ?_, ?_, ?_, ?_, ?_, ?_, ?_⟩
    · simp [api_marcar_factura_pagada, hf, ho, hm, hnp, hmet0, hmet]
    · intro _
      simp [api_marcar_factura_pagada, hf, ho, hm, hnp, hmet0, hmet]
    · intro m hms
      exact absurd hms (by simp)
    · by_cases hle : (¬mesa.numero = 0 ∧ ¬mesa.numero = 50) ∧ ¬mesa.estado = "LIBRE" <;>
        simp [api_marcar_factura_pagada, hf, ho, hm, hnp, hmet0, hmet, hle,
          getFactura_saveFactura]
    · by_cases hle : (¬mesa.numero = 0 ∧ ¬mesa.numero = 50) ∧ ¬mesa.estado = "LIBRE" <;>
        simp [api_marcar_factura_pagada, hf, ho, hm, hnp, hmet0, hmet, hle,
          getFactura_saveFactura]
    · by_cases hle : (¬mesa.numero = 0 ∧ ¬mesa.numero = 50) ∧ ¬mesa.estado = "LIBRE" <;>
        simp [api_marcar_factura_pagada, hf, ho, hm, hnp, hmet0, hmet, hle,
          getFactura_saveFactura]
    · by_cases hle : (¬mesa.numero = 0 ∧ ¬mesa.numero = 50) ∧ ¬mesa.estado = "LIBRE" <;>
        simp [api_marcar_factura_pagada, hf, ho, hm, hnp, hmet0, hmet, hle,
          getFactura_saveFactura]
    · intro m hms
      exact absurd hms (by simp)
    · intro h0 h50
      by_cases hle : mesa.estado = "LIBRE" <;>
        simp [api_marcar_factura_pagada, hf, ho, hm, hnp, hmet0, hmet, h0, h50,
          hle, getFactura_saveFactura, getMesa_saveMesa]
  · by_cases hz : m = 0
    · subst hz
      refine ⟨?_, ?_, ?_, ?_, ?_, ?_, ?_, ?_, ?_⟩
      · simp [api_marcar_factura_pagada, hf, ho, hm, hnp, hmet0, hmet]
      · intro _
        simp [api_marcar_factura_pagada, hf, ho, hm, hnp, hmet0, hmet]
      · intro m' hms hm0
        exact absurd (by injection hms with h; exact h.symm) hm0
      · by_cases hle : (¬mesa.numero = 0 ∧ ¬mesa.numero = 50) ∧ ¬mesa.estado = "LIBRE" <;>
          simp [api_marcar_factura_pagada, hf, ho, hm, hnp, hmet0, hmet, hle,
            getFactura_saveFactura]
      · by_cases hle : (¬mesa.numero = 0 ∧ ¬mesa.numero = 50) ∧ ¬mesa.estado = "LIBRE" <;>
          simp [api_marcar_factura_pagada, hf, ho, hm, hnp, hmet0, hmet, hle,
            getFactura_saveFactura]
      · by_cases hle : (¬mesa.numero = 0 ∧ ¬mesa.numero = 50) ∧ ¬mesa.estado = "LIBRE" <;>
          simp [api_marcar_factura_pagada, hf, ho, hm, hnp, hmet0, hmet, hle,
            getFactura_saveFactura]
      · by_cases hle : (¬mesa.numero = 0 ∧ ¬mesa.numero = 50) ∧ ¬mesa.estado = "LIBRE" <;>
          simp [api_marcar_factura_pagada, hf, ho, hm, hnp, hmet0, hmet, hle,
            getFactura_saveFactura]
      · intro m' hms hm0 _
        exact absurd (by injection hms with h; exact h.symm) hm0
      · intro h0 h50
        by_cases hle : mesa.estado = "LIBRE" <;>
          simp [api_marcar_factura_pagada, hf, ho, hm, hnp, hmet0, hmet, h0,
            h50, hle, getFactura_saveFactura, getMesa_saveMesa]
    · refine ⟨?_, ?_, ?_, ?_, ?_, ?_, ?_, ?_, ?_⟩
      · simp [api_marcar_factura_pagada, hf, ho, hm, hnp, hmet0, hmet, hz]
      · intro hc
        rcases hc with hc | hc
        · exact absurd hc (by simp)
        · have h : m = 0 := by simpa using hc
          exact absurd h hz
      · intro m' hms _
        have hmm : m = m' := by injection hms
        subst hmm
        simp [api_marcar_factura_pagada, hf, ho, hm, hnp, hmet0, hmet, hz]
      · by_cases hle : (¬mesa.numero = 0 ∧ ¬mesa.numero = 50) ∧ ¬mesa.estado = "LIBRE" <;>
          simp [api_marcar_factura_pagada, hf, ho, hm, hnp, hmet0, hmet, hz,
            hle, getFactura_saveFactura]
      · by_cases hle : (¬mesa.numero = 0 ∧ ¬mesa.numero = 50) ∧ ¬mesa.estado = "LIBRE" <;>
          simp [api_marcar_factura_pagada, hf, ho, hm, hnp, hmet0, hmet, hz,
            hle, getFactura_saveFactura]
      · by_cases hle : (¬mesa.numero = 0 ∧ ¬mesa.numero = 50) ∧ ¬mesa.estado = "LIBRE" <;>
          simp [api_marcar_factura_pagada, hf, ho, hm, hnp, hmet0, hmet, hz,
            hle, getFactura_saveFactura]
      · by_cases hle : (¬mesa.numero = 0 ∧ ¬mesa.numero = 50) ∧ ¬mesa.estado = "LIBRE" <;>
          simp [api_marcar_factura_pagada, hf, ho, hm, hnp, hmet0, hmet, hz,
            hle, getFactura_saveFactura]
      · intro m' hms _ hlt
        have hmm : m = m' := by injection hms
        subst hmm
        constructor
        · simp [api_marcar_factura_pagada, hf, ho, hm, hnp, hmet0, hmet, hz,
            not_le.mpr hlt]
        · by_cases hle : (¬mesa.numero = 0 ∧ ¬mesa.numero = 50) ∧ ¬mesa.estado = "LIBRE" <;>
            simp [api_marcar_factura_pagada, hf, ho, hm, hnp, hmet0, hmet, hz,
              hle, getFactura_saveFactura]
      · intro h0 h50
        by_cases hle : mesa.estado = "LIBRE" <;>
          simp [api_marcar_factura_pagada, hf, ho, hm, hnp, hmet0, hmet, hz,
            h0, h50, hle, getFactura_saveFactura, getMesa_saveMesa]

/-- Witness for C10: marking the 10.00 unpaid invoice paid with only 4.00
still yields `PAGADA`, and the 6.00 shortfall is reported. -/
theorem marcar_factura_pagada_contrato_witness :
    ((api_marcar_factura_pagada dbFacturaDiez facturaDiez.id
        ordenServidaFact.meseroId false "EFECTIVO" "" (some 4) "").1.success
      = true ∧
     ((api_marcar_factura_pagada dbFacturaDiez facturaDiez.id
        ordenServidaFact.meseroId false "EFECTIVO" "" (some 4) "").2.getFactura
        facturaDiez.id).map Factura.estado_pago = some "PAGADA") ∧
    (api_marcar_factura_pagada dbFacturaDiez facturaDiez.id
        ordenServidaFact.meseroId false "EFECTIVO" "" (some 4) "").1.faltante
      = 6 := by
  refine ⟨⟨?_, ?_⟩, ?_⟩
  · exact (marcar_factura_pagada_contrato dbFacturaDiez facturaDiez
      ordenServidaFact mesaFisicaOcupada "EFECTIVO" "" "" (some 4)
      rfl rfl rfl (by decide) (by decide) (by decide)).1
  · exact (marcar_factura_pagada_contrato dbFacturaDiez facturaDiez
      ordenServidaFact mesaFisicaOcupada "EFECTIVO" "" "" (some 4)
      rfl rfl rfl (by decide) (by decide) (by decide)).2.2.2.1
  · have h := ((marcar_factura_pagada_contrato dbFacturaDiez facturaDiez
      ordenServidaFact mesaFisicaOcupada "EFECTIVO" "" "" (some 4)
      rfl rfl rfl (by decide) (by decide) (by decide)).2.2.2.2.2.2.2.1
      4 rfl (by norm_num) (by norm_num [facturaDiez])).1
    rw [h]
    norm_num [facturaDiez]

/-- C5 (amended): marking an already-`LISTO` item ready fails with the
already-ready conflict error and changes nothing, in both the kitchen
service and the real-time API view; a `PENDIENTE` item becomes `LISTO`
with its ready timestamp -- in the kitchen service provided its order is
in an active state (`EN_PROCESO`/`NUEVA`/`LISTA`), in the API view
regardless of order state -- and when no `PENDIENTE` items remain in the
order afterwards the order becomes `LISTA` with its ready timestamp,
otherwise the order row is untouched. -/
theorem marcar_listo_contrato (db : DB) (po : OrdenProducto) (orden : Orden)
    (hpo : db.getOrdenProducto po.id = some po)
    (ho : db.getOrden po.ordenId = some orden) :
    (po.estado = "LISTO" →
      (marcar_producto_listo db po.id).1.success = false ∧
      (marcar_producto_listo db po.id).1.errores =
        ["El producto ya está marcado como listo"] ∧
      (marcar_producto_listo db po.id).2 = db ∧
      (api_marcar_producto_listo_tiempo_real db po.id).1.success = false ∧
      (api_marcar_producto_listo_tiempo_real db po.id).1.errores =
        ["El producto ya está marcado como listo"] ∧
      (api_marcar_producto_listo_tiempo_real db po.id).2 = db) ∧
    (po.estado = "PENDIENTE" →
      (orden.estado = "EN_PROCESO" ∨ orden.estado = "NUEVA" ∨
        orden.estado = "LISTA") →
      (marcar_producto_listo db po.id).1.success = true ∧
      (marcar_producto_listo db po.id).2.getOrdenProducto po.id =
        some { po with estado := "LISTO", listo_en := some db.now } ∧
      (pendientesCount (marcar_producto_listo db po.id).2 po.ordenId = 0 →
        (marcar_producto_listo db po.id).2.getOrden po.ordenId =
          some { orden with estado := "LISTA", listo_en := some db.now }) ∧
      (pendientesCount (marcar_producto_listo db po.id).2 po.ordenId ≠ 0 →
        (marcar_producto_listo db po.id).2.getOrden po.ordenId = some orden)) ∧
    (po.estado = "PENDIENTE" →
      (api_marcar_producto_listo_tiempo_real db po.id).1.success = true ∧
      (api_marcar_producto_listo_tiempo_real db po.id).2.getOrdenProducto po.id =
        some { po with estado := "LISTO", listo_en := some db.now } ∧
      (pendientesCount (api_marcar_producto_listo_tiempo_real db po.id).2
          po.ordenId = 0 →
        (api_marcar_producto_listo_tiempo_real db po.id).2.getOrden po.ordenId =
          some { orden with estado := "LISTA", listo_en := some db.now }) ∧
      (pendientesCount (api_marcar_producto_listo_tiempo_real db po.id).2
          po.ordenId ≠ 0 →
        (api_marcar_producto_listo_tiempo_real db po.id).2.getOrden po.ordenId =
          some orden)) := by
  refine ⟨?_, ?_, ?_⟩
  · intro hl
    refine ⟨?_, ?_, ?_, ?_, ?_, ?_⟩ <;>
      simp [marcar_producto_listo, api_marcar_producto_listo_tiempo_real,
        hpo, hl]
  · intro hpend hord
    have hord' : ¬((¬orden.estado = "EN_PROCESO" ∧ ¬orden.estado = "NUEVA") ∧
        ¬orden.estado = "LISTA") := by tauto
    have hl : ¬ po.estado = "LISTO" := by simp [hpend]
    by_cases hpz : pendientesCount
        (db.saveOrdenProducto { po with estado := "LISTO", listo_en := some db.now })
        po.ordenId = 0
    · refine ⟨?_, ?_, ?_, ?_⟩
      · simp [marcar_producto_listo, hpo, ho, hl, hord', hpz]
      · simp [marcar_producto_listo, hpo, ho, hl, hord', hpz,
          getOrdenProducto_saveOrdenProducto]
      · intro _
        simp [marcar_producto_listo, hpo, ho, hl, hord', hpz,
          getOrden_saveOrden]
      · intro hne
        exfalso
        apply hne
        simp [marcar_producto_listo, hpo, ho, hl, hord', hpz]
    · refine ⟨?_, ?_, ?_, ?_⟩
      · simp [marcar_producto_listo, hpo, ho, hl, hord', hpz]
      · simp [marcar_producto_listo, hpo, ho, hl, hord', hpz,
          getOrdenProducto_saveOrdenProducto]
      · intro h0
        exfalso
        apply hpz
        simp [marcar_producto_listo, hpo, ho, hl, hord', hpz] at h0
      · intro _
        simp [marcar_producto_listo, hpo, ho, hl, hord', hpz]
  · intro hpend
    have hl : ¬ po.estado = "LISTO" := by simp [hpend]
    by_cases hpz : pendientesCount
        (db.saveOrdenProducto { po with estado := "LISTO", listo_en := some db.now })
        po.ordenId = 0
    · refine ⟨?_, ?_, ?_, ?_⟩
      · simp [api_marcar_producto_listo_tiempo_real, hpo, ho, hl, hpz]
      · simp [api_marcar_producto_listo_tiempo_real, hpo, ho, hl, hpz,
          getOrdenProducto_saveOrdenProducto]
      · intro _
        simp [api_marcar_producto_listo_tiempo_real, hpo, ho, hl, hpz,
          getOrden_saveOrden]
      · intro hne
        exfalso
        apply hne
        simp [api_marcar_producto_listo_tiempo_real, hpo, ho, hl, hpz]
    · refine ⟨?_, ?_, ?_, ?_⟩
      · simp [api_marcar_producto_listo_tiempo_real, hpo, ho, hl, hpz]
      · simp [api_marcar_producto_listo_tiempo_real, hpo, ho, hl, hpz,
          getOrdenProducto_saveOrdenProducto]
      · intro h0
        exfalso
        apply hpz
        simp [api_marcar_producto_listo_tiempo_real, hpo, ho, hl, hpz] at h0
      · intro _
        simp [api_marcar_producto_listo_tiempo_real, hpo, ho, hl, hpz]

/-- Witness for C5 at concrete inputs: marking the pending 3-unit line of
the `EN_PROCESO` order ready succeeds (it is the order's only pending line
together with the 1-unit line, so the order stays in process), and marking
an already-`LISTO` item again fails without change. -/
theorem marcar_listo_contrato_witness :
    ((marcar_producto_listo dbDecremento itemDosUnidades.id).1.success = true ∧
     (marcar_producto_listo dbDecremento itemDosUnidades.id).2.getOrdenProducto
       itemDosUnidades.id = some { itemDosUnidades with
         estado := "LISTO", listo_en := some dbDecremento.now }) ∧
    ((marcar_producto_listo dbVirtual itemListoVirtual.id).1.success = false ∧
     (marcar_producto_listo dbVirtual itemListoVirtual.id).2 = dbVirtual) := by
  constructor
  · have h := (marcar_listo_contrato dbDecremento itemDosUnidades
      ordenEnProcesoDec rfl rfl).2.1 rfl (Or.inl rfl)
    exact ⟨h.1, h.2.1⟩
  · have h := (marcar_listo_contrato dbVirtual itemListoVirtual
      ordenListaVirtual rfl rfl).1 rfl
    exact ⟨h.1, h.2.2.1⟩

/-- Witness for C9 at concrete inputs: delay 2, a cache holding the key at
time 10, a repeat at time 11. -/
theorem debounce_rechaza_y_limpia_witness :
    cacheGet [("debounce_7:api_crear_orden_tiempo_real", (10 : Rat))]
        "debounce_7:api_crear_orden_tiempo_real" = some 10 ∧
    (11 : Rat) - 10 < 2 ∧
    debounce_request 2 [("debounce_7:api_crear_orden_tiempo_real", (10 : Rat))]
        "debounce_7:api_crear_orden_tiempo_real" 11 (.respuesta "ok") =
      (DebounceOutcome.bloqueado (2 - ((11 : Rat) - 10)),
       [("debounce_7:api_crear_orden_tiempo_real", (10 : Rat))]) :=
  ⟨rfl, by norm_num,
   (debounce_rechaza_y_limpia 2
      [("debounce_7:api_crear_orden_tiempo_real", (10 : Rat))]
      "debounce_7:api_crear_orden_tiempo_real" 10 11 (.respuesta "ok") "boom"
      rfl (by norm_num)).1⟩

/-- C1: the claim says every operation decrementing stock is rejected with
an insufficient-stock error before any mutation whenever stock is smaller
than the requested quantity, for EVERY input list, including one naming the
same product in more than one line.  The code violates this: with stock 3
and a request of two lines of 2 units for the same product, each line is
validated against the undiminished stock of 3, so validation passes;
`api_crear_orden_tiempo_real` then re-fetches the product per line and
drives the stock to -1, while `MeseroService.crear_orden_completa` writes
each validation-time snapshot minus its line (last write wins, stock 1)
and commits 4 units against a stock of 3 -- neither path rejects. -/
theorem crear_orden_duplicado_stock_negativo :
    (api_crear_orden_tiempo_real dbStockTres 7 1 pedidoDoble "").1.success = true ∧
    ((api_crear_orden_tiempo_real dbStockTres 7 1 pedidoDoble "").2.getProducto 1).map
      Producto.cantidad = some (-1) ∧
    (crear_orden_completa dbStockTres 7 1 pedidoDoble "").1.success = true ∧
    ((crear_orden_completa dbStockTres 7 1 pedidoDoble "").2.getProducto 1).map
      Producto.cantidad = some 1 := by
  decide

/-- C2 counterexample: the claim says the served order's table is freed
UNLESS it is a virtual table (number 0 or 50).  `api_marcar_orden_servida`
(one of the claim's cited sources) sets the table `LIBRE` unconditionally:
serving the ready order on the occupied virtual table number 0 succeeds and
flips that table from `OCUPADA` to `LIBRE`. -/
theorem servir_libera_mesa_virtual :
    mesaVirtualOcupada.numero = 0 ∧
    dbVirtual.getMesa 2 = some mesaVirtualOcupada ∧
    mesaVirtualOcupada.estado = "OCUPADA" ∧
    (api_marcar_orden_servida dbVirtual 1).1.success = true ∧
    ((api_marcar_orden_servida dbVirtual 1).2.getMesa 2).map Mesa.estado =
      some "LIBRE" := by
  decide

/-- C5 counterexample: the claim says a `PENDIENTE` item becomes `LISTO`
when marked ready.  `CocinaService.marcar_producto_listo` (the claim's
first cited source) also requires the owning order to be in an active
state: on a `PENDIENTE` item of a `SERVIDA` order it fails and changes
nothing. -/
theorem marcar_listo_orden_servida_rechazado :
    (dbOrdenServida.getOrdenProducto 3).map OrdenProducto.estado =
      some "PENDIENTE" ∧
    (marcar_producto_listo dbOrdenServida 3).1.success = false ∧
    (marcar_producto_listo dbOrdenServida 3).2 = dbOrdenServida := by
  decide

/-- C8 counterexample: the claim says that after any mutation a polling
client observes a change even when the recomputed digest coincides with its
last-seen one, thanks to the notification counter.  Serving the ready order
in `dbServir` mutates order state and increments the counter, yet the
kitchen digest (which covers only `EN_PROCESO`/`NUEVA` orders and never
reads the counter) is unchanged, and the poll reports no change. -/
theorem poll_no_observa_cambio_tras_mutacion :
    (entregar_orden dbServir 1 7 false).1.success = true ∧
    (entregar_orden dbServir 1 7 false).2.notifCocina =
      dbServir.notifCocina + 1 ∧
    generar_hash_estado_cocina (entregar_orden dbServir 1 7 false).2 =
      generar_hash_estado_cocina dbServir ∧
    (long_polling_cocina (entregar_orden dbServir 1 7 false).2
      (some (generar_hash_estado_cocina dbServir))).1 = false := by
  decide

end Caprichos
